import Mathlib

/-!
# k8s-pod-restart-info-collector

A shallow embedding of the reconciliation pipeline of the collector
(`controller.go`, `helpers.go`, `slack.go`): the change filter installed by
`NewController`, the mute gate and message assembly of `handlePod`, the ledger
sweep `cleanOldSlackHistory`, the retry policy `handleErr`, the channel
resolution of `getSlackChannelFromPod` / `sendToChannel`, and the status reason
that `printPod` derives from the container statuses.

Conventions of the embedding.

* Identifiers (namespaces, names, keys, environment values, channels) are
  `String`; texts that flow into the Slack message are `Bytes`, because Go's
  `len` counts bytes and `s[k:]` cuts bytes.
* An instant is an integer number of nanoseconds, and so is a duration;
  `Time.Sub` saturates at the range of a 64-bit `Duration`, as in Go, and
  `int(d.Seconds())` goes through the two `float64` roundings of `Seconds`.
* Calls that leave the process (the cluster API, the web hook, the regular
  expression engine, the table writer, the clock) are parameters: the
  environment `Env`, the collaborators `Collab`, and the two clock readings of
  one `handlePod` invocation.
-/

set_option autoImplicit false

namespace PodRestart

/-! ## Go strings, integers and instants -/

/-- A Go string seen as its bytes. -/
abbrev Bytes := List UInt8

/-- The UTF-8 bytes of a string literal of the source. -/
def str (s : String) : Bytes := s.data.flatMap String.utf8EncodeChar

/-- A Go `error`, identified by its message. -/
abbrev Error := String

/-! An instant (`time.Time`) is an `Int`: wall-clock nanoseconds since an epoch
(`time.Now().Local()` carries no monotonic reading). A `time.Duration` is an
`Int` too: signed nanoseconds, kept within 64 bits by `Time.Sub`. -/

/-- The largest `time.Duration`. -/
def maxDuration : Int := 2 ^ 63 - 1

/-- The smallest `time.Duration`. -/
def minDuration : Int := -(2 ^ 63)

/-- Go `t.Sub(u)`: the difference, saturated to the range of `Duration`. -/
def Time.Sub (t u : Int) : Int :=
  if t - u > maxDuration then maxDuration
  else if t - u < minDuration then minDuration
  else t - u

def Second : Int := 1000000000

def Hour : Int := 3600 * Second

/-! `Duration.Seconds` works in `float64`. The values it meets are sums of a
whole number below `2 ^ 34` and a fraction of at least `1e-9`, so every one
of them is zero or at least `2 ^ (-30)`, and a multiple of `2 ^ (-82)`: they are
kept here as natural numbers in units of `2 ^ (-82)`, and rounding to `float64`
is rounding to 53 significant bits, ties to the even mantissa. -/

/-- How many low bits a number must lose to fit into 53 bits (the `float64`
mantissa); the fuel bounds the search. -/
def float64Shift : Nat → Nat → Nat
  | 0, _ => 0
  | fuel + 1, n => if n < 2 ^ 53 then 0 else float64Shift fuel (n / 2) + 1

/-- The rational `num / den` rounded to the nearest multiple of `2 ^ shift`, a
tie going to the even multiple. -/
def roundHalfEven (num den shift : Nat) : Nat :=
  if 2 * (num % (den * 2 ^ shift)) < den * 2 ^ shift then num / (den * 2 ^ shift) * 2 ^ shift
  else if den * 2 ^ shift < 2 * (num % (den * 2 ^ shift)) then
    (num / (den * 2 ^ shift) + 1) * 2 ^ shift
  else if num / (den * 2 ^ shift) % 2 = 0 then num / (den * 2 ^ shift) * 2 ^ shift
  else (num / (den * 2 ^ shift) + 1) * 2 ^ shift

/-- The rational `num / den` (zero, or at least `2 ^ 52`) rounded to the nearest
`float64`: to 53 significant bits, ties to even. -/
def roundFloat64 (num den : Nat) : Nat := roundHalfEven num den (float64Shift 128 (num / den))

/-- Go `int(d.Seconds())` for a duration of `n >= 0` nanoseconds. `Seconds` is
`float64(sec) + float64(nsec) / 1e9` with `sec = d / Second`, `nsec = d % Second`:
both conversions are exact for a 64-bit duration, the quotient is rounded, the
sum is rounded, and the conversion to `int` drops the fraction. -/
def Duration.secondsMagnitude (n : Nat) : Nat :=
  roundFloat64 (n / 1000000000 * 2 ^ 82 + roundFloat64 (n % 1000000000 * 2 ^ 82) 1000000000) 1
    / 2 ^ 82

/-- Go `int(d.Seconds())`. Go's `/` and `%` truncate, so `sec` and `nsec` have
the sign of `d`; `float64` arithmetic is symmetric in the sign and `int`
truncates toward zero, so the value for a negative `d` is minus the value for
`-d`. It is the truncated quotient `d / Second` while that is below `2 ^ 24` in
absolute value; beyond, the sum can round to the next whole second
(`2 ^ 24 s + 999999999 ns` gives 16777217). -/
def Duration.wholeSeconds (d : Int) : Int :=
  if d < 0 then -((Duration.secondsMagnitude d.natAbs : Nat) : Int)
  else ((Duration.secondsMagnitude d.natAbs : Nat) : Int)

/-- Go `d.Hours() > 1`. `Hours` is `float64(d / Hour) + float64(d % Hour) / (60 * 60 * 1e9)`;
it exceeds 1 exactly when `d` exceeds one hour by at least a nanosecond. -/
def Duration.moreThanOneHour (d : Int) : Bool := decide (d > Hour)

/-- Two's-complement wrap of a Go `int` (64 bits). -/
def wrapInt64 (x : Int) : Int := (x + 2 ^ 63) % 2 ^ 64 - 2 ^ 63

/-! ## Pod snapshots (the fields of `v1.Pod` the collector reads) -/

structure ContainerStateWaiting where
  Reason : String := ""
  deriving DecidableEq, Repr

structure ContainerStateRunning where
  StartedAt : Int := 0
  deriving DecidableEq, Repr

structure ContainerStateTerminated where
  ExitCode : Int := 0
  Signal : Int := 0
  Reason : String := ""
  Message : String := ""
  StartedAt : Int := 0
  FinishedAt : Int := 0
  deriving DecidableEq, Repr

/-- At most one of the three members is set; a Go nil pointer is `none`. -/
structure ContainerState where
  Waiting : Option ContainerStateWaiting := none
  Running : Option ContainerStateRunning := none
  Terminated : Option ContainerStateTerminated := none
  deriving DecidableEq, Repr

structure ContainerStatus where
  Name : String := ""
  State : ContainerState := {}
  LastTerminationState : ContainerState := {}
  Ready : Bool := false
  RestartCount : Int := 0
  deriving DecidableEq, Repr

structure Container where
  Name : String := ""
  deriving DecidableEq, Repr

/-- A pod condition; `CondType` is the Go field `Type`. -/
structure PodCondition where
  CondType : String := ""
  Status : String := ""
  deriving DecidableEq, Repr

structure PodSpec where
  InitContainers : List Container := []
  Containers : List Container := []
  NodeName : String := ""
  deriving DecidableEq, Repr

structure PodStatus where
  Phase : String := ""
  Reason : String := ""
  Conditions : List PodCondition := []
  InitContainerStatuses : List ContainerStatus := []
  ContainerStatuses : List ContainerStatus := []
  deriving DecidableEq, Repr

structure Pod where
  Namespace : String := ""
  Name : String := ""
  Annotations : List (String × String) := []
  Labels : List (String × String) := []
  CreationTimestamp : Int := 0
  DeletionTimestamp : Option Int := none
  Spec : PodSpec := {}
  Status : PodStatus := {}
  deriving DecidableEq, Repr

/-- What the informer hands to a handler: an `interface{}` that is a `*v1.Pod` or not. -/
inductive Obj where
  | pod (p : Pod)
  | other
  deriving DecidableEq, Repr

/-! ## Environment and configuration (`helpers.go`) -/

/-- The process environment and the regular-expression engine.
`getenv` is `os.Getenv` (the empty string when unset); `matchString pattern s`
is the first result of `regexp.MatchString(pattern, s)`, which is `false` when
the pattern does not compile. -/
structure Env where
  getenv : String → String
  matchString : String → String → Bool

/-- Go `strings.Split(s, sep)` for a one-character separator, on characters. -/
def splitChars (sep : Char) : List Char → List (List Char)
  | [] => [[]]
  | c :: cs =>
    if c = sep then [] :: splitChars sep cs
    else
      match splitChars sep cs with
      | [] => [[c]]
      | w :: ws => (c :: w) :: ws

/-- Go `strings.Split(s, ",")`. -/
def splitComma (s : String) : List String := (splitChars ',' s.data).map String.mk

def digitValue (c : Char) : Option Nat :=
  if '0' ≤ c ∧ c ≤ '9' then some (c.toNat - 48) else none

def parseDigits : List Char → Nat → Option Nat
  | [], acc => some acc
  | c :: cs, acc =>
    match digitValue c with
    | some d => parseDigits cs (acc * 10 + d)
    | none => none

/-- Go `strconv.Atoi`: an optional sign, then one or more decimal digits, within
the range of a 64-bit `int`; `none` stands for a non-nil error. -/
def Atoi (s : String) : Option Int :=
  match s.data with
  | [] => none
  | '-' :: ds =>
    if ds = [] then none
    else (parseDigits ds 0).bind fun n => if n ≤ 2 ^ 63 then some (-(n : Int)) else none
  | '+' :: ds =>
    if ds = [] then none
    else (parseDigits ds 0).bind fun n => if n < 2 ^ 63 then some (n : Int) else none
  | ds => (parseDigits ds 0).bind fun n => if n < 2 ^ 63 then some (n : Int) else none

def getPodRestartCount (pod : Pod) : Int :=
  pod.Status.ContainerStatuses.foldl (fun restarts container => wrapInt64 (restarts + container.RestartCount)) 0

def isIgnoredNamespace (env : Env) (ns : String) : Bool :=
  let ignoredNamespacesEnv := env.getenv "IGNORED_NAMESPACES"
  if ignoredNamespacesEnv = "" then false
  else (splitComma ignoredNamespacesEnv).any fun ignoredNamespace => env.matchString ignoredNamespace ns

def isIgnoredPod (env : Env) (name : String) : Bool :=
  let ignoredPodNamePrefixesEnv := env.getenv "IGNORED_POD_NAME_PREFIXES"
  if ignoredPodNamePrefixesEnv = "" then false
  else (splitComma ignoredPodNamePrefixesEnv).any fun ignoredPodNamePrefix => env.matchString ignoredPodNamePrefix name

def isWatchedNamespace (env : Env) (ns : String) : Bool :=
  let watchedNamespacesEnv := env.getenv "WATCHED_NAMESPACES"
  if watchedNamespacesEnv = "" then true
  else (splitComma watchedNamespacesEnv).any fun watchedNamespace => env.matchString watchedNamespace ns

def isWatchedPod (env : Env) (name : String) : Bool :=
  let watchedPodNamePrefixesEnv := env.getenv "WATCHED_POD_NAME_PREFIXES"
  if watchedPodNamePrefixesEnv = "" then true
  else (splitComma watchedPodNamePrefixesEnv).any fun watchedPodNamePrefix => env.matchString watchedPodNamePrefix name

def getIgnoreRestartCount (env : Env) : Int :=
  match Atoi (env.getenv "IGNORE_RESTART_COUNT") with
  | some ignoreRestartCount => ignoreRestartCount
  | none => 30

/-! ## The change filter (`NewController`) -/

/-- The key function `cache.MetaNamespaceKeyFunc` of client-go: `namespace/name`,
or the bare name for an empty namespace; an error for an object without
metadata. -/
def MetaNamespaceKeyFunc : Obj → Except Error String
  | .pod p => .ok (if p.Namespace.length > 0 then p.Namespace ++ "/" ++ p.Name else p.Name)
  | .other => .error "object has no meta"

/-- The `UpdateFunc` registered by `NewController`; the result is the key given
to `queue.Add`, or `none` when the handler returns without enqueueing. -/
def UpdateFunc (env : Env) (ignoreRestartCount : Int) (old new : Obj) : Option String :=
  match old with
  | .other => none
  | .pod oldPod =>
    match new with
    | .other => none
    | .pod newPod =>
      if isIgnoredNamespace env newPod.Namespace then none
      else if isIgnoredPod env newPod.Name then none
      else
        let newPodRestartCount := getPodRestartCount newPod
        if newPodRestartCount > ignoreRestartCount then none
        else
          let oldPodRestartCount := getPodRestartCount oldPod
          if newPodRestartCount > oldPodRestartCount then
            match MetaNamespaceKeyFunc new with
            | .ok key => some key
            | .error _ => none
          else none

/-- The update handler as `NewController` builds it: the ceiling is read once,
when the controller is created. -/
def NewController (env : Env) (old new : Obj) : Option String :=
  UpdateFunc env (getIgnoreRestartCount env) old new

/-- A regular-expression engine restricted to patterns without metacharacters:
such a pattern matches exactly the strings that contain it. -/
def containsChars (pat : List Char) : List Char → Bool
  | [] => pat.isEmpty
  | c :: cs => pat.isPrefixOf (c :: cs) || containsChars pat cs

/-- An environment given by a table of variables, with the literal matcher. -/
def tableEnv (vars : List (String × String)) : Env where
  getenv := fun k => (vars.lookup k).getD ""
  matchString := fun pat s => containsChars pat.data s.data

/-! ## Slack (`slack.go`) -/

def SlackChannelKey : String := "alert-slack-channel"

/-- The ledger `Slack.History`, a Go `map[string]time.Time`: the time of the
last alert of each pod key, `none` where the map has no entry. -/
abbrev History := String → Option Int

structure Slack where
  WebhookUrl : String := ""
  DefaultChannel : String := "restart-info-nonprod"
  Username : String := "k8s-pod-restart-info-collector"
  ClusterName : String := "cluster-name"
  MuteSeconds : Int := 600
  History : History := fun _ => none

structure SlackMessage where
  Title : Bytes
  Text : Bytes
  Footer : Bytes
  deriving DecidableEq, Repr

/-- The payload of `slack.PostWebhook`: the channel and the one attachment
(`Text`, `Pretext`, `Footer`); the constant colour, icon and markdown fields and
the send-time stamp `Ts` are left out. -/
structure WebhookMessage where
  Username : String
  Channel : String
  Text : Bytes
  Pretext : Bytes
  Footer : Bytes
  deriving DecidableEq, Repr

/-- One call of `slack.PostWebhook` and whether it returned a nil error. -/
structure Post where
  msg : WebhookMessage
  delivered : Bool
  deriving DecidableEq, Repr

/-! ## Cluster objects read while assembling diagnostics -/

structure ObjectReference where
  Name : String := ""
  deriving DecidableEq, Repr

structure Event where
  LastTimestamp : Int := 0
  InvolvedObject : ObjectReference := {}
  Reason : Bytes := []
  Message : Bytes := []
  deriving DecidableEq, Repr

structure Node where
  Name : String := ""
  Unschedulable : Bool := false
  deriving DecidableEq, Repr

/-- The outside world during one `handlePod` invocation.

* `printPod`, `describeContainerState`, `getContainerResource`, `printNode`:
  the table renderings of `helpers.go` (tab writer output, or its error);
* `listEvents ns selector`: `clientset.CoreV1().Events(ns).List` with the field selector;
* `getNode name`: `clientset.CoreV1().Nodes().Get`;
* `getLogs ns pod container`: the previous container's log stream (tail 50, with
  timestamps), read to the end;
* `postWebhook`: `slack.PostWebhook`, `none` for a nil error;
* `formatTime`: how `%s` prints a `metav1.Time`. -/
structure Collab where
  printPod : Pod → Except Error Bytes
  describeContainerState : ContainerStatus → Except Error Bytes
  getContainerResource : Container → Except Error Bytes
  printNode : Node → Except Error Bytes
  listEvents : String → String → Except Error (List Event)
  getNode : String → Except Error Node
  getLogs : String → String → String → Except Error Bytes
  postWebhook : WebhookMessage → Option Error
  formatTime : Int → Bytes

/-- `Slack.sendToChannel`: the post it makes and the error it returns. -/
def sendToChannel (s : Slack) (c : Collab) (msg : SlackMessage) (slackChannel : String) :
    Option Error × Post :=
  let channel := if slackChannel ≠ "" then slackChannel else s.DefaultChannel
  let payload : WebhookMessage :=
    { Username := s.Username, Channel := channel, Text := msg.Text, Pretext := msg.Title,
      Footer := msg.Footer }
  match c.postWebhook payload with
  | some err => (some err, { msg := payload, delivered := false })
  | none => (none, { msg := payload, delivered := true })

/-- `getSlackChannelFromPod`: the annotation, else the label, else the empty string. -/
def getSlackChannelFromPod (pod : Pod) : String :=
  match pod.Annotations.lookup SlackChannelKey with
  | some slackChannel => slackChannel
  | none =>
    match pod.Labels.lookup SlackChannelKey with
    | some slackChannel => slackChannel
    | none => ""

/-! ## Diagnostics (`controller.go`, `helpers.go`) -/

def printContainerLastStateReason (status : ContainerStatus) : Bytes :=
  let lastStateReason := (status.LastTerminationState.Terminated.map (·.Reason)).getD ""
  let lastExitCode := (status.LastTerminationState.Terminated.map (·.ExitCode)).getD 0
  str lastStateReason ++ str " (ExitCode " ++ str (toString lastExitCode) ++ str ")"

/-- Go `a < b` on strings: lexicographic by bytes, which for UTF-8 text is
lexicographic by characters. -/
def stringLess (a b : String) : Bool := decide (a.data < b.data)

/-- `byLastTimestamp.Less`. -/
def byLastTimestampLess (a b : Event) : Bool :=
  if a.LastTimestamp = b.LastTimestamp then stringLess a.InvolvedObject.Name b.InvolvedObject.Name
  else decide (a.LastTimestamp < b.LastTimestamp)

/-- One pass of Go's insertion sort: the new element, appended at the right end
of the sorted part, moves left while it is `Less` than its left neighbour. -/
def insertFromRight (less : Event → Event → Bool) (x : Event) (sorted : List Event) : List Event :=
  let r := sorted.reverse
  (r.dropWhile (less x)).reverse ++ x :: (r.takeWhile (less x)).reverse

/-- `sort.Sort(byLastTimestamp(events))`. Go sorts up to 12 elements by
insertion sort, which is what this is; on longer lists the library's
pattern-defeating quicksort may order events that tie under `Less` differently. -/
def sortByLastTimestamp (events : List Event) : List Event :=
  events.foldl (fun sorted x => insertFromRight byLastTimestampLess x sorted) []

/-- The line `fmt.Sprintf("%s, %s, %s\n", event.LastTimestamp, event.Reason, event.Message)`. -/
def eventLine (c : Collab) (event : Event) : Bytes :=
  c.formatTime event.LastTimestamp ++ str ", " ++ event.Reason ++ str ", " ++ event.Message ++ str "\n"

def getPodEvents (c : Collab) (pod : Pod) : Except Error Bytes :=
  match c.listEvents pod.Namespace "type!=Normal" with
  | .error err => .error ("got error while getting events: " ++ err)
  | .ok events =>
    let sortedEvents := if events.length > 1 then sortByLastTimestamp events else events
    let out := sortedEvents.foldl
      (fun out event => if event.InvolvedObject.Name = pod.Name then out ++ eventLine c event else out) []
    if out = [] then .ok (str "• No Warning Pod Events\n")
    else .ok (str "• Pod Events\n```\n" ++ out ++ str "```\n")

def getNodeAndEvents (c : Collab) (pod : Pod) : Except Error Bytes :=
  match c.getNode pod.Spec.NodeName with
  | .error err => .error err
  | .ok node =>
    let out : Bytes := match c.printNode node with
      | .ok table => table
      | .error _ => []
    match c.listEvents "default" "involvedObject.kind=Node" with
    | .error err => .error ("got error while getting events: " ++ err)
    | .ok events =>
      let sortedEvents := if events.length > 1 then sortByLastTimestamp events else events
      let out := sortedEvents.foldl
        (fun out event =>
          if event.InvolvedObject.Name = pod.Spec.NodeName then out ++ eventLine c event else out) out
      .ok (str "• Node Status and Events\n```\n" ++ out ++ str "```\n")

def getContainerLogs (c : Collab) (pod : Pod) (containerStatus : ContainerStatus) : Except Error Bytes :=
  match c.getLogs pod.Namespace pod.Name containerStatus.Name with
  | .error err => .error ("got error while getting logs: " ++ err)
  | .ok out => .ok out

/-- The block `podStatus` of `handlePod`. -/
def podStatusBlock (podInfo restartReason containerState containerResource : Bytes) : Bytes :=
  str "```" ++ podInfo ++ str "```\n• Reason: `" ++ restartReason ++
    str "`\n• Pod Status\n```\n" ++ containerState ++ containerResource ++ str "```\n"

/-- The log text that `handlePod` keeps, given the text `lead` that precedes the
log block (`podStatus+podEvents+nodeEvents`) and the non-empty raw log: the last
`maxLogLength` bytes when `maxLogLength > 0` and the log is longer than that. -/
def keptLogs (lead containerLogs : Bytes) : Bytes :=
  let maxLogLength : Int := 7500 - (lead.length : Int)
  if maxLogLength > 0 ∧ (containerLogs.length : Int) > maxLogLength then
    containerLogs.drop (containerLogs.length - maxLogLength.toNat)
  else containerLogs

/-- The value of `containerLogs` after the `if containerLogs == ""` statement of `handlePod`. -/
def logBlock (lead containerLogs : Bytes) : Bytes :=
  if containerLogs = [] then str "• No Logs Before Restart\n"
  else str "• Pod Logs Before Restart\n```\n" ++ keptLogs lead containerLogs ++ str "```\n"

/-- The `Text` of the message: `podStatus + podEvents + nodeEvents + containerLogs`. -/
def messageText (podStatus podEvents nodeEvents containerLogs : Bytes) : Bytes :=
  podStatus ++ podEvents ++ nodeEvents ++ logBlock (podStatus ++ podEvents ++ nodeEvents) containerLogs

/-- The message bytes of the events about the object `name`. -/
def messageBytes (name : String) (events : List Event) : Nat :=
  ((events.filter fun e => e.InvolvedObject.Name = name).map fun e => e.Message.length).sum

/-! ## The pod summary (`printPod`)

`printPod` works out the cells of the one-row table `NAME READY STATUS RESTARTS AGE`
and hands them to the tab writer; the cells are what is modelled here, the
rendering is the collaborator `Collab.printPod`. The zero `time.Time`, the
initial `lastRestartDate`, is taken as instant 0. -/

/-- The local variables of `printPod`. -/
structure PodSummary where
  restarts : Int := 0
  readyContainers : Int := 0
  lastRestartDate : Int := 0
  reason : String := ""
  initializing : Bool := false
  hasRunning : Bool := false
  deriving DecidableEq, Repr

/-- The head of both loops of `printPod`: the restart count is added and the
latest termination date is kept. -/
def countRestart (v : PodSummary) (container : ContainerStatus) : PodSummary :=
  let v := { v with restarts := wrapInt64 (v.restarts + container.RestartCount) }
  match container.LastTerminationState.Terminated with
  | some terminated =>
    if v.lastRestartDate < terminated.FinishedAt then
      { v with lastRestartDate := terminated.FinishedAt }
    else v
  | none => v

/-- The loop of `printPod` over `pod.Status.InitContainerStatuses`, from index `i`
on: init containers terminated with exit code 0 are passed over (`continue`),
the first other one sets the reason and ends the loop (`break`). -/
def initWalk (pod : Pod) : Nat → List ContainerStatus → PodSummary → PodSummary
  | _, [], v => v
  | i, container :: rest, v =>
    match container.State.Terminated with
    | some terminated =>
      if terminated.ExitCode = 0 then initWalk pod (i + 1) rest (countRestart v container)
      else if terminated.Reason = "" then
        if terminated.Signal ≠ 0 then
          { countRestart v container with
            reason := "Init:Signal:" ++ toString terminated.Signal, initializing := true }
        else
          { countRestart v container with
            reason := "Init:ExitCode:" ++ toString terminated.ExitCode, initializing := true }
      else
        { countRestart v container with
          reason := "Init:" ++ terminated.Reason, initializing := true }
    | none =>
      match container.State.Waiting with
      | some waiting =>
        if waiting.Reason ≠ "" ∧ waiting.Reason ≠ "PodInitializing" then
          { countRestart v container with
            reason := "Init:" ++ waiting.Reason, initializing := true }
        else
          { countRestart v container with
            reason := "Init:" ++ toString i ++ "/" ++ toString pod.Spec.InitContainers.length,
            initializing := true }
      | none =>
        { countRestart v container with
          reason := "Init:" ++ toString i ++ "/" ++ toString pod.Spec.InitContainers.length,
          initializing := true }

/-- The branches of the main loop of `printPod` after the test of the waiting
reason: a terminated container gives its reason, or its signal or exit code; a
container that is ready and running counts as running. -/
def mainStepRest (v : PodSummary) (container : ContainerStatus) : PodSummary :=
  match container.State.Terminated with
  | some terminated =>
    if terminated.Reason ≠ "" then { v with reason := terminated.Reason }
    else if terminated.Signal ≠ 0 then { v with reason := "Signal:" ++ toString terminated.Signal }
    else { v with reason := "ExitCode:" ++ toString terminated.ExitCode }
  | none =>
    if container.Ready = true ∧ container.State.Running ≠ none then
      { v with hasRunning := true, readyContainers := v.readyContainers + 1 }
    else v

/-- One iteration of the main loop of `printPod`. -/
def mainStep (v : PodSummary) (container : ContainerStatus) : PodSummary :=
  match container.State.Waiting with
  | some waiting =>
    if waiting.Reason ≠ "" then { countRestart v container with reason := waiting.Reason }
    else mainStepRest (countRestart v container) container
  | none => mainStepRest (countRestart v container) container

/-- `hasPodReadyCondition`: a condition of type `Ready` with status `True`. -/
def hasPodReadyCondition (conditions : List PodCondition) : Bool :=
  conditions.any fun condition => condition.CondType = "Ready" && condition.Status = "True"

/-- The start of `printPod`: the reason is the pod's phase, or its status reason if there is one. -/
def startSummary (pod : Pod) : PodSummary :=
  { reason := if pod.Status.Reason ≠ "" then pod.Status.Reason else pod.Status.Phase }

/-- The variables of `printPod` after the loop over the init containers. -/
def initSummary (pod : Pod) : PodSummary :=
  initWalk pod 0 pod.Status.InitContainerStatuses (startSummary pod)

/-- The variables of `printPod` after the walk over `pod.Status.ContainerStatuses`
from the last to the first, which a pod that is not initializing goes through. -/
def mainWalk (pod : Pod) : PodSummary :=
  pod.Status.ContainerStatuses.reverse.foldl mainStep
    { initSummary pod with restarts := 0, hasRunning := false }

/-- The variables of `printPod` when it renders the row. -/
def podSummary (pod : Pod) : PodSummary :=
  let v :=
    if (initSummary pod).initializing then initSummary pod
    else if (mainWalk pod).reason = "Completed" ∧ (mainWalk pod).hasRunning = true then
      if hasPodReadyCondition pod.Status.Conditions then { mainWalk pod with reason := "Running" }
      else { mainWalk pod with reason := "NotReady" }
    else mainWalk pod
  if pod.DeletionTimestamp ≠ none ∧ pod.Status.Reason = "NodeLost" then { v with reason := "Unknown" }
  else if pod.DeletionTimestamp ≠ none then { v with reason := "Terminating" }
  else v

/-- The status reason that `printPod` prints in the column `STATUS`. -/
def printPodReason (pod : Pod) : String := (podSummary pod).reason

/-- The branch of the main loop that counts a container as running is taken:
no waiting reason, not terminated, ready, and running. -/
def countsAsRunning (container : ContainerStatus) : Bool :=
  (match container.State.Waiting with
    | some waiting => decide (waiting.Reason = "")
    | none => true) &&
  decide (container.State.Terminated = none) &&
  container.Ready && decide (container.State.Running ≠ none)

/-! ## The mute ledger and `handlePod` -/

/-- `cleanOldSlackHistory` at clock reading `currentTime`: every entry whose age
is more than one hour is deleted. -/
def cleanOldSlackHistory (currentTime : Int) (history : History) : History :=
  fun pod =>
    match history pod with
    | some lastSentTime =>
      if Duration.moreThanOneHour (Time.Sub currentTime lastSentTime) then none else some lastSentTime
    | none => none

/-- The assignment `c.slack.History[podKey] = currentTime`. -/
def History.set (history : History) (podKey : String) (currentTime : Int) : History :=
  fun k => if k = podKey then some currentTime else history k

/-- The guard at the head of `handlePod`: `true` when the pod is in
`slack.History` and `int(currentTime.Sub(lastSentTime).Seconds()) < MuteSeconds`,
in which case `handlePod` returns nil at once. -/
def isMuted (s : Slack) (podKey : String) (currentTime : Int) : Bool :=
  match s.History podKey with
  | some lastSentTime => decide (Duration.wholeSeconds (Time.Sub currentTime lastSentTime) < s.MuteSeconds)
  | none => false

/-- How a call ends: a nil error, a non-nil error, or a run-time panic (index out of range). -/
inductive Outcome where
  | nil
  | err (e : Error)
  | panic
  deriving DecidableEq, Repr

/-- What one `handlePod` call leaves behind: its return, the `Slack` value with
the ledger as the call left it, and the web hook posts the call made. -/
structure Handled where
  ret : Outcome
  slack : Slack
  posts : List Post

/-- The `SlackMessage` that `handlePod` builds around the text. -/
def alertMessage (s : Slack) (pod : Pod) (text : Bytes) : SlackMessage :=
  { Title := str "*Pod restarted!*\n*cluster: `" ++ str s.ClusterName ++ str "`, pod: `" ++
      str pod.Name ++ str "`, namespace: `" ++ str pod.Namespace ++ str "`*",
    Text := text,
    Footer := str s.ClusterName ++ str ", " ++ str pod.Name ++ str ", " ++ str pod.Namespace }

/-- One iteration of the `for i, status := range pod.Status.ContainerStatuses`
loop of `handlePod` for a status whose `RestartCount` is not 0: everything from
`printPod` to the `break`. `currentTime` is the clock reading taken at the head
of `handlePod`, `sweepTime` the one `cleanOldSlackHistory` takes. -/
def handleRestarted (s : Slack) (c : Collab) (currentTime sweepTime : Int) (pod : Pod)
    (podKey : String) (i : Nat) (status : ContainerStatus) : Handled :=
  match c.printPod pod with
  | .error err => { ret := .err err, slack := s, posts := [] }
  | .ok podInfo =>
  match c.describeContainerState status with
  | .error err => { ret := .err err, slack := s, posts := [] }
  | .ok containerState =>
  let restartReason := printContainerLastStateReason status
  match pod.Spec.Containers[i]? with
  | none => { ret := .panic, slack := s, posts := [] }
  | some containerSpec =>
  match c.getContainerResource containerSpec with
  | .error err => { ret := .err err, slack := s, posts := [] }
  | .ok containerResource =>
  let podStatus := podStatusBlock podInfo restartReason containerState containerResource
  match getPodEvents c pod with
  | .error err => { ret := .err err, slack := s, posts := [] }
  | .ok podEvents =>
  match getNodeAndEvents c pod with
  | .error err => { ret := .err err, slack := s, posts := [] }
  | .ok nodeEvents =>
  match getContainerLogs c pod status with
  | .error err => { ret := .err err, slack := s, posts := [] }
  | .ok containerLogs =>
  let msg := alertMessage s pod (messageText podStatus podEvents nodeEvents containerLogs)
  let slackChannel := getSlackChannelFromPod pod
  let sent := sendToChannel s c msg slackChannel
  match sent.1 with
  | some err => { ret := .err err, slack := s, posts := [sent.2] }
  | none =>
    { ret := .nil,
      slack := { s with History := cleanOldSlackHistory sweepTime (s.History.set podKey currentTime) },
      posts := [sent.2] }

/-- The loop `for i, status := range pod.Status.ContainerStatuses` of `handlePod`,
from index `i` on: statuses with `RestartCount == 0` are skipped, the first
other one is handled and ends the loop (by `return` or by `break`). -/
def handlePodLoop (s : Slack) (c : Collab) (currentTime sweepTime : Int) (pod : Pod)
    (podKey : String) : Nat → List ContainerStatus → Handled
  | _, [] => { ret := .nil, slack := s, posts := [] }
  | i, status :: rest =>
    if status.RestartCount = 0 then handlePodLoop s c currentTime sweepTime pod podKey (i + 1) rest
    else handleRestarted s c currentTime sweepTime pod podKey i status

/-- `Controller.handlePod`. -/
def handlePod (s : Slack) (c : Collab) (currentTime sweepTime : Int) (pod : Pod) : Handled :=
  let podKey := pod.Namespace ++ "/" ++ pod.Name
  if isMuted s podKey currentTime then { ret := .nil, slack := s, posts := [] }
  else handlePodLoop s c currentTime sweepTime pod podKey 0 pod.Status.ContainerStatuses

/-- `Controller.getPodFromIndexer`; `lookup` is `GetIndexer().GetByKey(key)`:
an error, or the object if the key exists. -/
def getPodFromIndexer (lookup : String → Except Error (Option Obj)) (key : String) :
    Except Error Pod :=
  match lookup key with
  | .error err => .error err
  | .ok none => .error (key ++ " not exists in indexer")
  | .ok (some .other) => .error "obj is not a valid Pod object"
  | .ok (some (.pod pod)) => .ok pod

/-- `Controller.getAndHandlePod`. -/
def getAndHandlePod (lookup : String → Except Error (Option Obj)) (s : Slack) (c : Collab)
    (currentTime sweepTime : Int) (key : String) : Handled :=
  match getPodFromIndexer lookup key with
  | .error err => { ret := .err err, slack := s, posts := [] }
  | .ok pod => handlePod s c currentTime sweepTime pod

/-- One `handlePod` call of the worker: the pod it read from the indexer, the
two clock readings and the outside world at that moment. -/
structure Invocation where
  pod : Pod
  currentTime : Int
  sweepTime : Int
  collab : Collab

/-- A series of `handlePod` calls on one `Slack` value, the ledger carried from
call to call. The result lists every web hook post with the key of the pod it
was made for; a panic ends the process and with it the series. -/
def runHandlePods (s : Slack) : List Invocation → Slack × List (String × Post)
  | [] => (s, [])
  | inv :: rest =>
    let h := handlePod s inv.collab inv.currentTime inv.sweepTime inv.pod
    let made := h.posts.map fun post => (inv.pod.Namespace ++ "/" ++ inv.pod.Name, post)
    if h.ret = .panic then (h.slack, made)
    else ((runHandlePods h.slack rest).1, made ++ (runHandlePods h.slack rest).2)

/-- The notifications delivered for the pod with key `podKey`. -/
def deliveredFor (podKey : String) (posts : List (String × Post)) : List Post :=
  (posts.filter fun kp => kp.1 = podKey && kp.2.delivered).map (·.2)

/-! ## The work queue and the retry policy -/

/-- Modelled from the spec: the rate limited work queue (`workqueue.RateLimitingInterface`
of client-go, which the sources only call). `queue` holds the keys waiting for a
worker, `dirty` the keys that need processing, `processing` the keys a worker
holds, `failures` the requeue counter of the rate limiter. -/
structure WorkQueue where
  queue : List String := []
  dirty : List String := []
  processing : List String := []
  failures : String → Nat := fun _ => 0

namespace WorkQueue

/-- Modelled from the spec: `add(key)`, a no-op for a key already pending; a key
added while in flight waits for `done`. -/
def Add (q : WorkQueue) (key : String) : WorkQueue :=
  if key ∈ q.dirty then q
  else if key ∈ q.processing then { q with dirty := q.dirty ++ [key] }
  else { q with dirty := q.dirty ++ [key], queue := q.queue ++ [key] }

/-- Modelled from the spec: `get()`, the next waiting key, now in flight; `none`
when no key is waiting (the worker blocks). -/
def Get (q : WorkQueue) : Option (String × WorkQueue) :=
  match q.queue with
  | [] => none
  | key :: rest =>
    some (key, { q with queue := rest, processing := key :: q.processing,
                        dirty := q.dirty.filter (· ≠ key) })

/-- Modelled from the spec: `done(key)`, the end of the flight; a key re-added
meanwhile becomes eligible again. -/
def Done (q : WorkQueue) (key : String) : WorkQueue :=
  let processing := q.processing.filter (· ≠ key)
  if key ∈ q.dirty then { q with processing := processing, queue := q.queue ++ [key] }
  else { q with processing := processing }

/-- Modelled from the spec: `num_requeues(key)`. -/
def NumRequeues (q : WorkQueue) (key : String) : Nat := q.failures key

/-- Modelled from the spec: `forget(key)` clears the retry history of the key. -/
def Forget (q : WorkQueue) (key : String) : WorkQueue :=
  { q with failures := fun k => if k = key then 0 else q.failures k }

/-- Modelled from the spec: `add_rate_limited(key)` counts one more requeue of
the key and re-enqueues it (once the backoff delay is over, which is not modelled). -/
def AddRateLimited (q : WorkQueue) (key : String) : WorkQueue :=
  Add { q with failures := fun k => if k = key then q.failures k + 1 else q.failures k } key

end WorkQueue

/-- What a worker does that can be observed from outside the queue. -/
inductive Call where
  /-- The call `getAndHandlePod(key)`, with `NumRequeues(key)` at that moment. -/
  | attempt (key : String) (numRequeues : Nat)
  | addRateLimited (key : String)
  | forget (key : String)
  /-- The report `runtime.HandleError(err)`. -/
  | handleError (err : Error)
  deriving DecidableEq, Repr

/-- `Controller.handleErr`: the queue afterwards and the calls made. -/
def handleErr (q : WorkQueue) (err : Option Error) (key : String) : WorkQueue × List Call :=
  match err with
  | none => (q.Forget key, [.forget key])
  | some e =>
    if q.NumRequeues key < 3 then (q.AddRateLimited key, [.addRateLimited key])
    else (q.Forget key, [.forget key, .handleError e])

/-- `Controller.processNextItem`, with `business` standing for this call of
`getAndHandlePod`; `none` when `queue.Get` has nothing to hand out. -/
def processNextItem (business : String → Option Error) (q : WorkQueue) :
    Option (WorkQueue × List Call) :=
  match q.Get with
  | none => none
  | some (key, q1) =>
    let err := business key
    let r := handleErr q1 err key
    some (r.1.Done key, .attempt key (q1.NumRequeues key) :: r.2)

/-- `Controller.runWorker` for at most `fuel` items: `processNextItem` is
repeated until the queue has nothing to hand out. `business n` is the outcome
of `getAndHandlePod` at the `n`-th item processed. -/
def runWorker (business : Nat → String → Option Error) : Nat → Nat → WorkQueue → WorkQueue × List Call
  | 0, _, q => (q, [])
  | fuel + 1, n, q =>
    match processNextItem (business n) q with
    | none => (q, [])
    | some (q1, calls) =>
      ((runWorker business fuel (n + 1) q1).1, calls ++ (runWorker business fuel (n + 1) q1).2)

/-! ## Vocabulary for statements about `handlePod` -/

/-- The status at index `j` is the first one of the pod with a non-zero restart
count: the one `handlePod` reports. -/
def FirstRestarted (pod : Pod) (j : Nat) (status : ContainerStatus) : Prop :=
  pod.Status.ContainerStatuses[j]? = some status ∧ status.RestartCount ≠ 0 ∧
    ∀ k st, k < j → pod.Status.ContainerStatuses[k]? = some st → st.RestartCount = 0

/-- Every diagnostics step for the container at index `i` succeeds, and `text`
is the message text put together from the results. -/
def Assembled (c : Collab) (pod : Pod) (i : Nat) (status : ContainerStatus) (text : Bytes) : Prop :=
  ∃ podInfo containerState containerSpec containerResource podEvents nodeEvents containerLogs,
    c.printPod pod = .ok podInfo ∧ c.describeContainerState status = .ok containerState ∧
    pod.Spec.Containers[i]? = some containerSpec ∧
    c.getContainerResource containerSpec = .ok containerResource ∧
    getPodEvents c pod = .ok podEvents ∧ getNodeAndEvents c pod = .ok nodeEvents ∧
    getContainerLogs c pod status = .ok containerLogs ∧
    text = messageText
      (podStatusBlock podInfo (printContainerLastStateReason status) containerState
        containerResource) podEvents nodeEvents containerLogs

/-- A diagnostics step for the container at index `i` returns the error `e`, the
steps before it having succeeded. The steps, in the order of `handlePod`: pod
summary, container state, resources, pod events, node lookup and events, log
fetch. -/
def AssemblyFailsWith (c : Collab) (pod : Pod) (i : Nat) (status : ContainerStatus)
    (e : Error) : Prop :=
  c.printPod pod = .error e ∨
  ∃ podInfo, c.printPod pod = .ok podInfo ∧
    (c.describeContainerState status = .error e ∨
    ∃ containerState, c.describeContainerState status = .ok containerState ∧
      ∃ containerSpec, pod.Spec.Containers[i]? = some containerSpec ∧
        (c.getContainerResource containerSpec = .error e ∨
        ∃ containerResource, c.getContainerResource containerSpec = .ok containerResource ∧
          (getPodEvents c pod = .error e ∨
          ∃ podEvents, getPodEvents c pod = .ok podEvents ∧
            (getNodeAndEvents c pod = .error e ∨
            ∃ nodeEvents, getNodeAndEvents c pod = .ok nodeEvents ∧
              getContainerLogs c pod status = .error e))))

/-! ## Sample inputs -/

/-- The pod `ns/name` on node `node-a`, with one container `app` that restarted `n` times. -/
def samplePod (ns name : String) (n : Int) : Pod :=
  { Namespace := ns, Name := name,
    Spec := { Containers := [{ Name := "app" }], NodeName := "node-a" },
    Status := { ContainerStatuses := [{ Name := "app", RestartCount := n }] } }

/-- Only pods of namespace `prod` are to be watched; nothing is ignored. -/
def watchProdEnv : Env := tableEnv [("WATCHED_NAMESPACES", "prod")]

/-- Collaborators that all succeed: fixed renderings, no events, a short log. -/
def quietCollab : Collab where
  printPod := fun _ => .ok (str "NAME READY STATUS RESTARTS AGE\n")
  describeContainerState := fun _ => .ok (str "app:\n")
  getContainerResource := fun _ => .ok []
  printNode := fun _ => .ok (str "NAME STATUS AGE VERSION\n")
  listEvents := fun _ _ => .ok []
  getNode := fun name => .ok { Name := name }
  getLogs := fun _ _ _ => .ok (str "boom\n")
  postWebhook := fun _ => none
  formatTime := fun _ => str "2024-01-01 00:00:00 +0000 UTC"

/-- A ledger with the single entry `key ↦ t`. -/
def singleEntry (key : String) (t : Int) : History :=
  fun k => if k = key then some t else none

/-- Muting switched off (`MUTE_SECONDS=0`), and an alert for `default/web-1`
recorded at clock reading half a second. -/
def unmutedSlack : Slack :=
  { MuteSeconds := 0, History := singleEntry "default/web-1" 500000000 }

/-- A mute window of two hours, nothing alerted yet. -/
def longMuteSlack : Slack := { MuteSeconds := 7200 }

/-- `default/web-1` restarts at second 0 and again at second 6000; in between,
at second 5400, `default/api-1` restarts. All collaborators succeed, and each
sweep reads the clock right after its alert. -/
def interleavedAlerts : List Invocation :=
  [ { pod := samplePod "default" "web-1" 1, currentTime := 0, sweepTime := 0,
      collab := quietCollab },
    { pod := samplePod "default" "api-1" 1, currentTime := 5400 * Second,
      sweepTime := 5400 * Second, collab := quietCollab },
    { pod := samplePod "default" "web-1" 2, currentTime := 6000 * Second,
      sweepTime := 6000 * Second, collab := quietCollab } ]

/-- The same two restarts of `default/web-1` with no other alert in between. -/
def backToBackAlerts : List Invocation :=
  [ { pod := samplePod "default" "web-1" 1, currentTime := 0, sweepTime := 0,
      collab := quietCollab },
    { pod := samplePod "default" "web-1" 2, currentTime := 6000 * Second,
      sweepTime := 6000 * Second, collab := quietCollab } ]

/-- The queue right after `Add(key)` on an idle queue whose requeue counters are `failures`. -/
def pendingQueue (failures : String → Nat) (key : String) : WorkQueue :=
  { queue := [key], dirty := [key], processing := [], failures := failures }

/-- A crash-looping pod seen by the cluster: eight warning events about
`web-1`, each with a message of 950 bytes, and a previous log of 5000 bytes. -/
def noisyCollab : Collab :=
  { quietCollab with
    listEvents := fun _ selector =>
      if selector = "type!=Normal" then
        .ok (List.replicate 8
          { LastTimestamp := 0, InvolvedObject := { Name := "web-1" }, Reason := str "BackOff",
            Message := List.replicate 950 120 })
      else .ok []
    getLogs := fun _ _ _ => .ok (List.replicate 5000 120) }

/-- The node of the pod is gone: the node lookup fails, everything else succeeds. -/
def nodeGoneCollab : Collab :=
  { quietCollab with getNode := fun _ => .error "node not found" }

/-- The web hook is down: assembly succeeds, the post fails. -/
def hookDownCollab : Collab :=
  { quietCollab with postWebhook := fun _ => some "connection refused" }

/-- A mute window of two hours, and an alert for `default/web-1` recorded at clock reading 0. -/
def longMuteAlerted : Slack :=
  { MuteSeconds := 7200, History := singleEntry "default/web-1" 0 }

/-- A ledger with two entries one nanosecond apart: `default/api-1` alerted at
second 3600, `default/web-1` one nanosecond later. -/
def twoEntries : History :=
  fun k => if k = "default/web-1" then some (3600 * Second + 1)
    else if k = "default/api-1" then some (3600 * Second) else none

/-- A job pod with a sidecar, as the update after a restart of the sidecar shows
it: the container `job` has terminated with reason `Completed`, the container
`sidecar` has restarted once and is running again but not yet ready; no init
containers, no deletion timestamp, no `Ready` condition. -/
def sidecarPod : Pod :=
  { Namespace := "default", Name := "job-1",
    Spec := { Containers := [{ Name := "job" }, { Name := "sidecar" }], NodeName := "node-a" },
    Status :=
      { Phase := "Running",
        ContainerStatuses :=
          [ { Name := "job", State := { Terminated := some { Reason := "Completed" } } },
            { Name := "sidecar", Ready := false, RestartCount := 1,
              State := { Running := some {} } } ] } }

/-- The same pod before the restart of the sidecar: its restart count is 0. -/
def sidecarPodBefore : Pod :=
  { sidecarPod with
    Status :=
      { Phase := "Running",
        ContainerStatuses :=
          [ { Name := "job", State := { Terminated := some { Reason := "Completed" } } },
            { Name := "sidecar", Ready := true, State := { Running := some {} } } ] } }

/-- The pod `sidecarPod` once the restarted sidecar is ready, and the pod
condition `Ready` true. -/
def readySidecarPod : Pod :=
  { sidecarPod with
    Status :=
      { Phase := "Running",
        Conditions := [{ CondType := "Ready", Status := "True" }],
        ContainerStatuses :=
          [ { Name := "job", State := { Terminated := some { Reason := "Completed" } } },
            { Name := "sidecar", Ready := true, RestartCount := 1,
              State := { Running := some {} } } ] } }

/-- A pod with two init containers: `fetch` exited with code 0, `migrate` was
killed by signal 9 (exit code 137, no reason given); the main container waits. -/
def initFailedPod : Pod :=
  { Namespace := "default", Name := "web-1",
    Spec :=
      { InitContainers := [{ Name := "fetch" }, { Name := "migrate" }],
        Containers := [{ Name := "app" }], NodeName := "node-a" },
    Status :=
      { Phase := "Pending",
        InitContainerStatuses :=
          [ { Name := "fetch", State := { Terminated := some { ExitCode := 0, Reason := "Completed" } } },
            { Name := "migrate", State := { Terminated := some { ExitCode := 137, Signal := 9 } } } ],
        ContainerStatuses :=
          [ { Name := "app", State := { Waiting := some { Reason := "PodInitializing" } } } ] } }

/-- A pod whose spec lists the containers `web`, `db` in that order and whose
statuses come sorted by name, `db` first (as the kubelet reports them); `db`
has restarted once. -/
def webDbPod : Pod :=
  { Namespace := "default", Name := "shop-1",
    Spec := { Containers := [{ Name := "web" }, { Name := "db" }], NodeName := "node-a" },
    Status :=
      { ContainerStatuses :=
          [ { Name := "db", RestartCount := 1 }, { Name := "web", RestartCount := 0 } ] } }

/-- Collaborators whose renderings name what they were given: the state block
is the name of the status, the resource block the name of the container spec. -/
def namingCollab : Collab :=
  { quietCollab with
    describeContainerState := fun status => .ok (str status.Name)
    getContainerResource := fun container => .ok (str container.Name) }

/-! ## The claims as the specification words them, where the code differs -/

/-- The mute gate as C3 states it: the pod passes exactly when the ledger has no
entry for the key or `now - History[key] >= MuteSeconds` seconds. -/
def GateBySeconds (s : Slack) (podKey : String) (now : Int) : Prop :=
  isMuted s podKey now = false ↔
    (s.History podKey = none ∨ ∃ t, s.History podKey = some t ∧ now - t ≥ s.MuteSeconds * Second)

/-- The log text kept in the block starts at a line boundary of the raw log, as
C8 states it: it is the tail of the raw log from some position on, and that
position is the start of the log or comes right after a newline byte. -/
def KeepsWholeLines (raw kept : Bytes) : Prop :=
  kept = raw.drop (raw.length - kept.length) ∧
    (raw.length - kept.length = 0 ∨ raw[raw.length - kept.length - 1]? = some 10)

instance (raw kept : Bytes) : Decidable (KeepsWholeLines raw kept) := by
  unfold KeepsWholeLines
  infer_instance

/-- The channel as C9 states it: the annotation's value if the pod has the
annotation, else the label's value if it has the label, else the default. -/
def channelByPrecedence (pod : Pod) (defaultChannel : String) : String :=
  match pod.Annotations.lookup SlackChannelKey with
  | some slackChannel => slackChannel
  | none =>
    match pod.Labels.lookup SlackChannelKey with
    | some slackChannel => slackChannel
    | none => defaultChannel

/-- A pod whose annotation `alert-slack-channel` is present and empty, and whose
label of the same key names a channel. -/
def emptyAnnotationPod : Pod :=
  { samplePod "default" "web-1" 1 with
    Annotations := [("alert-slack-channel", "")],
    Labels := [("alert-slack-channel", "team-web")] }

/-- A pod with the label `alert-slack-channel` and no such annotation. -/
def labelledPod : Pod :=
  { samplePod "default" "web-1" 1 with Labels := [("alert-slack-channel", "team-web")] }

/-! ## Theorems -/

/-! ### The change filter -/

/-- C2 (the code at the failing input): with `WATCHED_NAMESPACES=prod`, a pod of
namespace `dev` is not watched, and still its restart 0 → 1 is enqueued: the
update handler never consults `isWatchedNamespace` or `isWatchedPod`. -/
theorem NewController_enqueues_unwatched :
    isWatchedNamespace watchProdEnv "dev" = false ∧
      NewController watchProdEnv (.pod (samplePod "dev" "web-1" 0))
        (.pod (samplePod "dev" "web-1" 1)) = some "dev/web-1" := by
  constructor <;> decide

/-! ### The mute gate -/

theorem float64Shift_le (fuel n k : Nat) (h : n < 2 ^ (53 + k)) : float64Shift fuel n ≤ k := by
  induction fuel generalizing n k with
  | zero => simp [float64Shift]
  | succ fuel ih =>
    unfold float64Shift
    split
    · omega
    · rename_i hge
      cases k with
      | zero => exact absurd h hge
      | succ k =>
        have h2 : n / 2 < 2 ^ (53 + k) := by
          apply Nat.div_lt_of_lt_mul
          have : 2 ^ (53 + (k + 1)) = 2 * 2 ^ (53 + k) := by
            rw [← Nat.add_assoc, Nat.pow_succ, Nat.mul_comm]
          omega
        have := ih (n / 2) k h2
        omega

theorem roundHalfEven_ge (num den shift : Nat) :
    num / (den * 2 ^ shift) * 2 ^ shift ≤ roundHalfEven num den shift := by
  unfold roundHalfEven
  have hle : num / (den * 2 ^ shift) * 2 ^ shift ≤ (num / (den * 2 ^ shift) + 1) * 2 ^ shift :=
    Nat.mul_le_mul_right _ (Nat.le_succ _)
  split
  · exact le_refl _
  · split
    · exact hle
    · split
      · exact le_refl _
      · exact hle

theorem roundHalfEven_le (num den shift : Nat) :
    2 * (roundHalfEven num den shift * den) ≤ 2 * num + den * 2 ^ shift := by
  have hdm := Nat.div_add_mod num (den * 2 ^ shift)
  have e1 : num / (den * 2 ^ shift) * 2 ^ shift * den = den * 2 ^ shift * (num / (den * 2 ^ shift)) := by
    ring
  have e2 : (num / (den * 2 ^ shift) + 1) * 2 ^ shift * den =
      den * 2 ^ shift * (num / (den * 2 ^ shift)) + den * 2 ^ shift := by
    ring
  unfold roundHalfEven
  split
  · rw [e1]; omega
  · split
    · rw [e2]; omega
    · split
      · rw [e1]; omega
      · rw [e2]; omega


theorem fraction_lt (nsec : Nat) (h : nsec < 1000000000) :
    roundFloat64 (nsec * 2 ^ 82) 1000000000 < 2 ^ 82 - 2 ^ 52 := by
  have hq : nsec * 2 ^ 82 / 1000000000 < 2 ^ (53 + 29) := by
    apply Nat.div_lt_of_lt_mul
    omega
  have hs := float64Shift_le 128 _ 29 hq
  have hp : 2 ^ float64Shift 128 (nsec * 2 ^ 82 / 1000000000) ≤ 2 ^ 29 :=
    Nat.pow_le_pow_right (by decide) hs
  have hu := roundHalfEven_le (nsec * 2 ^ 82) 1000000000
    (float64Shift 128 (nsec * 2 ^ 82 / 1000000000))
  unfold roundFloat64
  generalize roundHalfEven (nsec * 2 ^ 82) 1000000000
    (float64Shift 128 (nsec * 2 ^ 82 / 1000000000)) = r at hu ⊢
  generalize 2 ^ float64Shift 128 (nsec * 2 ^ 82 / 1000000000) = p at hu hp
  omega

theorem secondsMagnitude_ge (n : Nat) (h : n ≤ 2 ^ 63) :
    n / 1000000000 ≤ Duration.secondsMagnitude n := by
  have hf := fraction_lt (n % 1000000000) (Nat.mod_lt _ (by decide))
  have hsec : n / 1000000000 < 2 ^ 34 := by
    apply Nat.div_lt_of_lt_mul
    omega
  unfold Duration.secondsMagnitude
  generalize roundFloat64 (n % 1000000000 * 2 ^ 82) 1000000000 = frac at hf ⊢
  generalize n / 1000000000 = sec at hsec ⊢
  have hN : (sec * 2 ^ 82 + frac) / 1 < 2 ^ (53 + 82) := by
    rw [Nat.div_one]
    omega
  have hs := float64Shift_le 128 _ 82 hN
  have hl := roundHalfEven_ge (sec * 2 ^ 82 + frac) 1 (float64Shift 128 ((sec * 2 ^ 82 + frac) / 1))
  unfold roundFloat64
  generalize float64Shift 128 ((sec * 2 ^ 82 + frac) / 1) = sh at hs hl ⊢
  rw [Nat.le_div_iff_mul_le (by positivity)]
  refine le_trans ?_ hl
  rw [Nat.one_mul]
  have hsplit : 2 ^ 82 = 2 ^ (82 - sh) * 2 ^ sh := by
    rw [← Nat.pow_add]
    congr 1
    omega
  have h1 : sec * 2 ^ (82 - sh) ≤ (sec * 2 ^ 82 + frac) / 2 ^ sh := by
    rw [Nat.le_div_iff_mul_le (by positivity)]
    calc sec * 2 ^ (82 - sh) * 2 ^ sh = sec * 2 ^ 82 := by rw [Nat.mul_assoc, ← hsplit]
      _ ≤ sec * 2 ^ 82 + frac := Nat.le_add_right _ _
  calc sec * 2 ^ 82 = sec * 2 ^ (82 - sh) * 2 ^ sh := by rw [Nat.mul_assoc, ← hsplit]
    _ ≤ (sec * 2 ^ 82 + frac) / 2 ^ sh * 2 ^ sh := Nat.mul_le_mul_right _ h1

theorem secondsMagnitude_eq (n : Nat) (h : n / 1000000000 < 2 ^ 24) :
    Duration.secondsMagnitude n = n / 1000000000 := by
  have hn : n ≤ 2 ^ 63 := by
    have := Nat.div_add_mod n 1000000000
    have := Nat.mod_lt n (show 0 < 1000000000 by decide)
    omega
  refine le_antisymm ?_ (secondsMagnitude_ge n hn)
  have hf := fraction_lt (n % 1000000000) (Nat.mod_lt _ (by decide))
  unfold Duration.secondsMagnitude
  generalize roundFloat64 (n % 1000000000 * 2 ^ 82) 1000000000 = frac at hf ⊢
  generalize n / 1000000000 = sec at h ⊢
  have hN : (sec * 2 ^ 82 + frac) / 1 < 2 ^ (53 + 53) := by
    rw [Nat.div_one]
    omega
  have hs := float64Shift_le 128 _ 53 hN
  have hp : 2 ^ float64Shift 128 ((sec * 2 ^ 82 + frac) / 1) ≤ 2 ^ 53 :=
    Nat.pow_le_pow_right (by decide) hs
  have hu := roundHalfEven_le (sec * 2 ^ 82 + frac) 1 (float64Shift 128 ((sec * 2 ^ 82 + frac) / 1))
  unfold roundFloat64
  generalize roundHalfEven (sec * 2 ^ 82 + frac) 1 (float64Shift 128 ((sec * 2 ^ 82 + frac) / 1))
    = r at hu ⊢
  generalize 2 ^ float64Shift 128 ((sec * 2 ^ 82 + frac) / 1) = p at hu hp
  have : r < (sec + 1) * 2 ^ 82 := by omega
  have := Nat.div_lt_of_lt_mul (m := r) (n := 2 ^ 82) (k := sec + 1) (by omega)
  omega

/-- The rounding of `Seconds` at work: one nanosecond before `2 ^ 24 + 1`
seconds `int(d.Seconds())` is already `2 ^ 24 + 1`, while one second earlier it
is still the truncated quotient; half a second before zero it is 0. -/
theorem wholeSeconds_samples :
    Duration.wholeSeconds (16777216 * Second + 999999999) = 16777217 ∧
      Duration.wholeSeconds (16777215 * Second + 999999999) = 16777215 ∧
      Duration.wholeSeconds (-500000000) = 0 := by
  refine ⟨by decide, by decide, by decide⟩

theorem Time.Sub_le (t u : Int) : Time.Sub t u ≤ 9223372036854775807 := by
  have hmax : maxDuration = 9223372036854775807 := by decide
  have hmin : minDuration = -9223372036854775808 := by decide
  unfold Time.Sub
  rw [hmax, hmin]
  split
  · omega
  · split <;> omega

theorem wholeSeconds_lt_iff (d m : Int) (h : 1 ≤ m ∨ 0 ≤ d) (hm : m ≤ 16777216)
    (hd : d ≤ 9223372036854775807) :
    Duration.wholeSeconds d < m ↔ d < m * Second := by
  have hS : Second = 1000000000 := rfl
  rw [hS]
  unfold Duration.wholeSeconds
  by_cases hneg : d < 0
  · rw [if_pos hneg]
    constructor <;> intro _ <;> omega
  · rw [if_neg hneg]
    have hn : (d.natAbs : Int) = d := Int.natAbs_of_nonneg (by omega)
    generalize d.natAbs = n at hn ⊢
    subst hn
    by_cases hlt : (n : Int) < m * 1000000000
    · have hq : n / 1000000000 < 2 ^ 24 := by omega
      rw [secondsMagnitude_eq n hq]
      constructor <;> intro _ <;> omega
    · have hge := secondsMagnitude_ge n (by omega)
      constructor <;> intro _ <;> omega

theorem isMuted_eq_false_iff (s : Slack) (podKey : String) (now : Int) :
    isMuted s podKey now = false ↔
      (s.History podKey = none ∨
        ∃ t, s.History podKey = some t ∧ Duration.wholeSeconds (Time.Sub now t) ≥ s.MuteSeconds) := by
  unfold isMuted
  cases h : s.History podKey with
  | none => simp
  | some t => simp

theorem isMuted_iff_seconds (s : Slack) (podKey : String) (now t : Int)
    (ht : s.History podKey = some t) (hsign : 1 ≤ s.MuteSeconds ∨ t ≤ now)
    (hrange : s.MuteSeconds ≤ 16777216) :
    isMuted s podKey now = false ↔ now - t ≥ s.MuteSeconds * Second := by
  have hmax : maxDuration = 9223372036854775807 := by decide
  have hmin : minDuration = -9223372036854775808 := by decide
  have hS : Second = 1000000000 := rfl
  have key : ¬ Duration.wholeSeconds (Time.Sub now t) < s.MuteSeconds ↔ now - t ≥ s.MuteSeconds * Second := by
    unfold Time.Sub
    by_cases h1 : now - t > maxDuration
    · rw [if_pos h1]
      have hm : s.MuteSeconds ≤ 9223372036 := by omega
      rw [wholeSeconds_lt_iff _ _ (Or.inr (by rw [hmax]; decide)) hrange (le_of_eq hmax)]
      rw [hmax] at h1 ⊢
      rw [hS]
      constructor
      · intro _; omega
      · intro _; omega
    · rw [if_neg h1]
      by_cases h2 : now - t < minDuration
      · rw [if_pos h2]
        have hm : 1 ≤ s.MuteSeconds := by
          rcases hsign with h | h
          · exact h
          · rw [hmin] at h2; omega
        rw [wholeSeconds_lt_iff _ _ (Or.inl hm) hrange (by rw [hmin]; decide)]
        rw [hmin] at h2 ⊢
        rw [hS]
        constructor
        · intro h; omega
        · intro h; omega
      · rw [if_neg h2]
        have hs : 1 ≤ s.MuteSeconds ∨ 0 ≤ now - t := by
          rcases hsign with h | h
          · exact Or.inl h
          · exact Or.inr (by omega)
        rw [wholeSeconds_lt_iff _ _ hs hrange (by rw [hmax] at h1; omega)]
        constructor
        · intro h; omega
        · intro h; omega
  unfold isMuted
  rw [ht]
  simpa using key

theorem handlePod_of_muted (s : Slack) (c : Collab) (now sweep : Int) (pod : Pod)
    (h : isMuted s (pod.Namespace ++ "/" ++ pod.Name) now = true) :
    (handlePod s c now sweep pod).ret = .nil ∧ (handlePod s c now sweep pod).posts = [] ∧
      (handlePod s c now sweep pod).slack = s := by
  simp [handlePod, h]

theorem handlePod_of_not_muted (s : Slack) (c : Collab) (now sweep : Int) (pod : Pod)
    (h : isMuted s (pod.Namespace ++ "/" ++ pod.Name) now = false) :
    handlePod s c now sweep pod =
      handlePodLoop s c now sweep pod (pod.Namespace ++ "/" ++ pod.Name) 0
        pod.Status.ContainerStatuses := by
  simp [handlePod, h]

/-- C3 as stated fails: with `MuteSeconds = 0` and an entry half a second in the
future of `now`, `now - History[key]` is below the mute window, yet
`int(Seconds())` truncates `-0.5` to `0`, the gate lets the pod through and
`handlePod` sends. -/
theorem gate_by_seconds_fails :
    ¬ GateBySeconds unmutedSlack "default/web-1" 0 ∧
      unmutedSlack.History "default/web-1" = some 500000000 ∧
      (0 : Int) - 500000000 < unmutedSlack.MuteSeconds * Second ∧
      ((handlePod unmutedSlack quietCollab 0 0 (samplePod "default" "web-1" 1)).posts.map
        (·.delivered)) = [true] := by
  refine ⟨?_, by decide, by decide, by decide⟩
  intro h
  have h1 : isMuted unmutedSlack "default/web-1" 0 = false := by decide
  rcases h.mp h1 with h2 | ⟨t, h2, h3⟩
  · exact absurd h2 (by decide)
  · have ht : t = 500000000 := by
      have : unmutedSlack.History "default/web-1" = some 500000000 := by decide
      rw [this] at h2
      exact (Option.some.inj h2).symm
    subst ht
    revert h3
    decide

/-- The bound `2 ^ 24` on the window is sharp: with `MuteSeconds = 16777217` and
an alert one nanosecond less than 16777217 seconds ago, the elapsed time is below
the window, but `Seconds` rounds to 16777217 and the pod passes. -/
theorem isMuted_rounds_up :
    (16777216 * Second + 999999999 : Int) - 0 < 16777217 * Second ∧
      isMuted { MuteSeconds := 16777217, History := singleEntry "default/web-1" 0 }
        "default/web-1" (16777216 * Second + 999999999) = false := by
  refine ⟨by decide, by decide⟩

/-- C3, amended: the mute gate of `handlePod` lets the pod through exactly when
the ledger has no entry for the key or the whole seconds of the elapsed
`Duration`, Go's `int(d.Seconds())` with `Seconds` computed in `float64`, are at
least `MuteSeconds`; when it does not, `handlePod` returns nil, posts nothing and
leaves the ledger alone. The whole-second test is the same as
`now - History[key] >= MuteSeconds` seconds whenever `MuteSeconds >= 1` or the
entry is not in the future, and `MuteSeconds` is at most `2 ^ 24 = 16777216` (a
window up to which neither the saturation of `Duration` nor the rounding of
`Seconds` can matter). -/
theorem mute_gate (s : Slack) (c : Collab) (now sweep : Int) (pod : Pod) :
    (isMuted s (pod.Namespace ++ "/" ++ pod.Name) now = false ↔
      (s.History (pod.Namespace ++ "/" ++ pod.Name) = none ∨
        ∃ t, s.History (pod.Namespace ++ "/" ++ pod.Name) = some t ∧
          Duration.wholeSeconds (Time.Sub now t) ≥ s.MuteSeconds)) ∧
    (isMuted s (pod.Namespace ++ "/" ++ pod.Name) now = true →
      (handlePod s c now sweep pod).ret = .nil ∧ (handlePod s c now sweep pod).posts = [] ∧
        (handlePod s c now sweep pod).slack = s) ∧
    (isMuted s (pod.Namespace ++ "/" ++ pod.Name) now = false →
      handlePod s c now sweep pod =
        handlePodLoop s c now sweep pod (pod.Namespace ++ "/" ++ pod.Name) 0
          pod.Status.ContainerStatuses) ∧
    (∀ t, s.History (pod.Namespace ++ "/" ++ pod.Name) = some t →
      (1 ≤ s.MuteSeconds ∨ t ≤ now) →
      s.MuteSeconds ≤ 16777216 →
      (isMuted s (pod.Namespace ++ "/" ++ pod.Name) now = false ↔
        now - t ≥ s.MuteSeconds * Second)) :=
  ⟨isMuted_eq_false_iff s _ now, handlePod_of_muted s c now sweep pod,
    handlePod_of_not_muted s c now sweep pod,
    fun t ht hsign hrange => isMuted_iff_seconds s _ now t ht hsign hrange⟩

/-- C3 at a concrete ledger: an alert for `default/web-1` at second 100 and the
default window of 600 seconds; at second 699.9 the pod is still muted and
`handlePod` posts nothing, at second 700 it passes. -/
theorem mute_gate_witness :
    (handlePod { History := singleEntry "default/web-1" 100000000000 } quietCollab
        699900000000 699900000000 (samplePod "default" "web-1" 1)).posts = [] ∧
      (isMuted { History := singleEntry "default/web-1" 100000000000 } "default/web-1"
        700000000000 = false ↔ (700000000000 : Int) - 100000000000 ≥ 600 * Second) :=
  ⟨((mute_gate { History := singleEntry "default/web-1" 100000000000 } quietCollab
        699900000000 699900000000 (samplePod "default" "web-1" 1)).2.1 (by decide)).2.1,
    (mute_gate { History := singleEntry "default/web-1" 100000000000 } quietCollab
        700000000000 700000000000 (samplePod "default" "web-1" 1)).2.2.2 100000000000
      (by decide) (by decide) (by decide)⟩

/-! ### Mute window over a series of calls -/

/-- C4 (the code at the failing input): with `MuteSeconds = 7200`, `default/web-1`
is alerted at second 0; the alert for `default/api-1` at second 5400 runs
`cleanOldSlackHistory`, which deletes the entry of `default/web-1` (older than
one hour); the call for `default/web-1` at second 6000, inside its mute window,
then finds no entry and is delivered too. Without the alert in between the
second call is silenced. -/
theorem mute_window_cut_by_sweep :
    (6000 * Second - 0 < longMuteSlack.MuteSeconds * Second) ∧
      (deliveredFor "default/web-1" (runHandlePods longMuteSlack interleavedAlerts).2).length = 2 ∧
      (deliveredFor "default/web-1" (runHandlePods longMuteSlack backToBackAlerts).2).length = 1 := by
  refine ⟨by decide, by decide, by decide⟩

/-! ### The retry policy -/

theorem runWorker_of_idle (business : Nat → String → Option Error) (fuel n : Nat)
    (q : WorkQueue) (h : q.queue = []) : runWorker business fuel n q = (q, []) := by
  cases fuel with
  | zero => rfl
  | succ fuel => simp [runWorker, processNextItem, WorkQueue.Get, h]

theorem processNextItem_retry (business : String → Option Error) (failures : String → Nat)
    (key : String) (e : Error) (hb : business key = some e) (hlt : failures key < 3) :
    processNextItem business (pendingQueue failures key) =
      some (pendingQueue (fun k => if k = key then failures k + 1 else failures k) key,
        [.attempt key (failures key), .addRateLimited key]) := by
  simp [processNextItem, WorkQueue.Get, pendingQueue, hb, handleErr, WorkQueue.NumRequeues, hlt,
    WorkQueue.AddRateLimited, WorkQueue.Add, WorkQueue.Done]

theorem processNextItem_drop (business : String → Option Error) (failures : String → Nat)
    (key : String) (e : Error) (hb : business key = some e) (hge : ¬ failures key < 3) :
    processNextItem business (pendingQueue failures key) =
      some ({ queue := [], dirty := [], processing := [],
              failures := fun k => if k = key then 0 else failures k },
        [.attempt key (failures key), .forget key, .handleError e]) := by
  simp [processNextItem, WorkQueue.Get, pendingQueue, hb, handleErr, WorkQueue.NumRequeues, hge,
    WorkQueue.Forget, WorkQueue.Done]

theorem runWorker_step (business : Nat → String → Option Error) (fuel n : Nat)
    (q q1 : WorkQueue) (calls : List Call) (h : processNextItem (business n) q = some (q1, calls)) :
    runWorker business (fuel + 1) n q =
      ((runWorker business fuel (n + 1) q1).1, calls ++ (runWorker business fuel (n + 1) q1).2) := by
  simp [runWorker, h]

/-- C5: from an idle queue with no retry history for `key`, once `key` is added
and `getAndHandlePod` fails at every attempt, a worker with room for at least 4
items attempts the key exactly 4 times: the first three failures, met at
`NumRequeues` 0, 1 and 2, are answered by `AddRateLimited`, the fourth by
`Forget` and the report of its error; nothing is left waiting and
`NumRequeues(key)` is 0 at the end. After a successful attempt `handleErr`
calls `Forget` alone and `NumRequeues(key)` is 0. -/
theorem retry_bound (business : Nat → String → Option Error) (failures : String → Nat)
    (key : String) (fuel : Nat) (hfresh : failures key = 0)
    (hfail : ∀ n, business n key ≠ none) (hfuel : 4 ≤ fuel) :
    (∃ e, business 3 key = some e ∧
      (runWorker business fuel 0 (WorkQueue.Add { failures := failures } key)).2 =
        [.attempt key 0, .addRateLimited key, .attempt key 1, .addRateLimited key,
          .attempt key 2, .addRateLimited key, .attempt key 3, .forget key, .handleError e] ∧
      (runWorker business fuel 0 (WorkQueue.Add { failures := failures } key)).1.queue = [] ∧
      (runWorker business fuel 0 (WorkQueue.Add { failures := failures } key)).1.NumRequeues key = 0) ∧
    (∀ q : WorkQueue, (handleErr q none key).2 = [.forget key] ∧
      (handleErr q none key).1.NumRequeues key = 0) := by
  constructor
  · obtain ⟨m, rfl⟩ : ∃ m, fuel = m + 4 := ⟨fuel - 4, by omega⟩
    obtain ⟨e0, h0⟩ := Option.ne_none_iff_exists'.mp (hfail 0)
    obtain ⟨e1, h1⟩ := Option.ne_none_iff_exists'.mp (hfail 1)
    obtain ⟨e2, h2⟩ := Option.ne_none_iff_exists'.mp (hfail 2)
    obtain ⟨e3, h3⟩ := Option.ne_none_iff_exists'.mp (hfail 3)
    refine ⟨e3, h3, ?_⟩
    have hadd : WorkQueue.Add { failures := failures } key = pendingQueue failures key := by
      simp [WorkQueue.Add, pendingQueue]
    rw [hadd]
    rw [runWorker_step business (m + 3) 0 _ _ _
      (processNextItem_retry (business 0) failures key e0 h0 (by omega))]
    rw [runWorker_step business (m + 2) 1 _ _ _
      (processNextItem_retry (business 1) _ key e1 h1 (by simp [hfresh]))]
    rw [runWorker_step business (m + 1) 2 _ _ _
      (processNextItem_retry (business 2) _ key e2 h2 (by simp [hfresh]))]
    rw [runWorker_step business m 3 _ _ _
      (processNextItem_drop (business 3) _ key e3 h3 (by simp [hfresh]))]
    rw [runWorker_of_idle business m 4 _ rfl]
    simp [hfresh, WorkQueue.NumRequeues]
  · intro q
    simp [handleErr, WorkQueue.Forget, WorkQueue.NumRequeues]

/-- C5 at a concrete key: `default/web-1` on a new queue, every attempt failing
with the error `boom`, a worker with room for 10 items. -/
theorem retry_bound_witness :
    (runWorker (fun _ _ => some "boom") 10 0 (WorkQueue.Add {} "default/web-1")).2 =
      [.attempt "default/web-1" 0, .addRateLimited "default/web-1",
        .attempt "default/web-1" 1, .addRateLimited "default/web-1",
        .attempt "default/web-1" 2, .addRateLimited "default/web-1",
        .attempt "default/web-1" 3, .forget "default/web-1", .handleError "boom"] := by
  obtain ⟨e, he, hlog, _⟩ := (retry_bound (fun _ _ => some "boom") (fun _ => 0) "default/web-1" 10
    rfl (fun _ => by simp) (by decide)).1
  have : e = "boom" := (Option.some.inj he).symm
  subst this
  exact hlog

/-! ### The size of the message text -/

theorem logHeading_length : (str "• Pod Logs Before Restart\n```\n").length = 32 := by decide

theorem fence_length : (str "```\n").length = 4 := by decide

theorem noLogs_length : (str "• No Logs Before Restart\n").length = 27 := by decide

theorem keptLogs_of_cut (lead containerLogs : Bytes) (hlead : lead.length < 7500)
    (hover : lead.length + containerLogs.length > 7500) :
    keptLogs lead containerLogs =
      containerLogs.drop (containerLogs.length - (7500 - lead.length)) := by
  unfold keptLogs
  have h1 : (7500 : Int) - (lead.length : Int) > 0 := by omega
  have h2 : (containerLogs.length : Int) > 7500 - (lead.length : Int) := by omega
  have h3 : ((7500 : Int) - (lead.length : Int)).toNat = 7500 - lead.length := by omega
  simp only [h1, h2, and_self, if_true, h3]

theorem keptLogs_of_fit (lead containerLogs : Bytes)
    (h : 7500 ≤ lead.length ∨ lead.length + containerLogs.length ≤ 7500) :
    keptLogs lead containerLogs = containerLogs := by
  unfold keptLogs
  have : ¬ ((7500 : Int) - (lead.length : Int) > 0 ∧
      (containerLogs.length : Int) > 7500 - (lead.length : Int)) := by omega
  simp only [this, if_false]

theorem keptLogs_length_le (lead containerLogs : Bytes) (hlead : lead.length < 7500) :
    lead.length + (keptLogs lead containerLogs).length ≤ 7500 := by
  by_cases hover : lead.length + containerLogs.length > 7500
  · rw [keptLogs_of_cut lead containerLogs hlead hover, List.length_drop]
    omega
  · rw [keptLogs_of_fit lead containerLogs (Or.inr (by omega))]
    omega

theorem messageText_length (podStatus podEvents nodeEvents containerLogs : Bytes) :
    (messageText podStatus podEvents nodeEvents containerLogs).length =
      (podStatus ++ podEvents ++ nodeEvents).length +
        (logBlock (podStatus ++ podEvents ++ nodeEvents) containerLogs).length := by
  unfold messageText
  rw [List.length_append]

theorem logBlock_length_of_nonempty (lead containerLogs : Bytes) (h : containerLogs ≠ []) :
    (logBlock lead containerLogs).length = 36 + (keptLogs lead containerLogs).length := by
  simp only [logBlock, h, if_false, List.length_append, logHeading_length, fence_length]
  omega

theorem messageText_length_of_cut (podStatus podEvents nodeEvents containerLogs : Bytes)
    (hlead : (podStatus ++ podEvents ++ nodeEvents).length < 7500)
    (hover : (podStatus ++ podEvents ++ nodeEvents).length + containerLogs.length > 7500) :
    (messageText podStatus podEvents nodeEvents containerLogs).length = 7536 := by
  have hne : containerLogs ≠ [] := by
    intro h
    rw [h, List.length_nil] at hover
    omega
  rw [messageText_length, logBlock_length_of_nonempty _ _ hne,
    keptLogs_of_cut _ _ hlead hover, List.length_drop]
  omega

theorem messageText_length_le (podStatus podEvents nodeEvents containerLogs : Bytes)
    (hlead : (podStatus ++ podEvents ++ nodeEvents).length < 7500) :
    (messageText podStatus podEvents nodeEvents containerLogs).length ≤ 7536 := by
  rw [messageText_length]
  by_cases hne : containerLogs = []
  · simp only [logBlock, hne, if_true, noLogs_length]
    omega
  · rw [logBlock_length_of_nonempty _ _ hne]
    have := keptLogs_length_le _ containerLogs hlead
    omega

/-- C6 as stated fails: with 100 bytes before the log block and a raw log of
8000 bytes the bundle would exceed 7500, the log is cut to 7400 bytes, and the
text is 7536 bytes long: the heading and fences of the log block are not part
of the budget. -/
theorem text_over_cap :
    (List.replicate 100 (97 : UInt8) ++ [] ++ []).length + (List.replicate 8000 (98 : UInt8)).length
        > 7500 ∧
      (messageText (List.replicate 100 97) [] [] (List.replicate 8000 98)).length = 7536 ∧
      ¬ (messageText (List.replicate 100 97) [] [] (List.replicate 8000 98)).length ≤ 7500 := by
  have h : (messageText (List.replicate 100 97) [] [] (List.replicate 8000 98)).length = 7536 :=
    messageText_length_of_cut _ _ _ _
      (by simp only [List.length_append, List.length_replicate, List.length_nil]; decide)
      (by simp only [List.length_append, List.length_replicate, List.length_nil]; decide)
  refine ⟨by simp only [List.length_append, List.length_replicate, List.length_nil]; decide, h, ?_⟩
  rw [h]
  decide

/-- C6, amended: when the text before the log block is shorter than 7500 bytes
and, with the non-empty raw log, would exceed 7500, the message text is exactly
7536 bytes long (the 7500 of the budget and the 36 bytes of the log block's
heading and fences), hence within the ceiling of 8000. -/
theorem text_length_when_cut (podStatus podEvents nodeEvents containerLogs : Bytes)
    (hne : containerLogs ≠ [])
    (hlead : (podStatus ++ podEvents ++ nodeEvents).length < 7500)
    (hover : (podStatus ++ podEvents ++ nodeEvents).length + containerLogs.length > 7500) :
    (messageText podStatus podEvents nodeEvents containerLogs).length = 7536 ∧
      (messageText podStatus podEvents nodeEvents containerLogs).length ≤ 8000 ∧
      (logBlock (podStatus ++ podEvents ++ nodeEvents) containerLogs).length =
        36 + (7500 - (podStatus ++ podEvents ++ nodeEvents).length) := by
  have h := messageText_length_of_cut podStatus podEvents nodeEvents containerLogs hlead hover
  refine ⟨h, by omega, ?_⟩
  rw [logBlock_length_of_nonempty _ _ hne, keptLogs_of_cut _ _ hlead hover, List.length_drop]
  omega

/-- C6 amended, at 100 bytes of text before a log of 8000 bytes. -/
theorem text_length_when_cut_witness :
    (messageText (List.replicate 60 97) (List.replicate 30 97) (List.replicate 10 97)
      (List.replicate 8000 98)).length ≤ 8000 :=
  (text_length_when_cut (List.replicate 60 97) (List.replicate 30 97) (List.replicate 10 97)
    (List.replicate 8000 98) (by decide)
    (by simp only [List.length_append, List.length_replicate]; decide)
    (by simp only [List.length_append, List.length_replicate]; decide)).2.1

/-! ### What `handlePod` posts and returns -/

theorem handleRestarted_printPod_error (s : Slack) (c : Collab) (now sweep : Int) (pod : Pod)
    (podKey : String) (i : Nat) (status : ContainerStatus) (e : Error)
    (h1 : c.printPod pod = .error e) :
    handleRestarted s c now sweep pod podKey i status = { ret := .err e, slack := s, posts := [] } := by
  simp [handleRestarted, h1]

theorem handleRestarted_describe_error (s : Slack) (c : Collab) (now sweep : Int) (pod : Pod)
    (podKey : String) (i : Nat) (status : ContainerStatus) (e : Error) (podInfo : Bytes)
    (h1 : c.printPod pod = .ok podInfo) (h2 : c.describeContainerState status = .error e) :
    handleRestarted s c now sweep pod podKey i status = { ret := .err e, slack := s, posts := [] } := by
  simp [handleRestarted, h1, h2]

theorem handleRestarted_index_panic (s : Slack) (c : Collab) (now sweep : Int) (pod : Pod)
    (podKey : String) (i : Nat) (status : ContainerStatus) (podInfo containerState : Bytes)
    (h1 : c.printPod pod = .ok podInfo) (h2 : c.describeContainerState status = .ok containerState)
    (h3 : pod.Spec.Containers[i]? = none) :
    handleRestarted s c now sweep pod podKey i status = { ret := .panic, slack := s, posts := [] } := by
  simp [handleRestarted, h1, h2, h3]

theorem handleRestarted_resource_error (s : Slack) (c : Collab) (now sweep : Int) (pod : Pod)
    (podKey : String) (i : Nat) (status : ContainerStatus) (e : Error)
    (podInfo containerState : Bytes) (containerSpec : Container)
    (h1 : c.printPod pod = .ok podInfo) (h2 : c.describeContainerState status = .ok containerState)
    (h3 : pod.Spec.Containers[i]? = some containerSpec)
    (h4 : c.getContainerResource containerSpec = .error e) :
    handleRestarted s c now sweep pod podKey i status = { ret := .err e, slack := s, posts := [] } := by
  simp [handleRestarted, h1, h2, h3, h4]

theorem handleRestarted_podEvents_error (s : Slack) (c : Collab) (now sweep : Int) (pod : Pod)
    (podKey : String) (i : Nat) (status : ContainerStatus) (e : Error)
    (podInfo containerState containerResource : Bytes) (containerSpec : Container)
    (h1 : c.printPod pod = .ok podInfo) (h2 : c.describeContainerState status = .ok containerState)
    (h3 : pod.Spec.Containers[i]? = some containerSpec)
    (h4 : c.getContainerResource containerSpec = .ok containerResource)
    (h5 : getPodEvents c pod = .error e) :
    handleRestarted s c now sweep pod podKey i status = { ret := .err e, slack := s, posts := [] } := by
  simp [handleRestarted, h1, h2, h3, h4, h5]

theorem handleRestarted_nodeEvents_error (s : Slack) (c : Collab) (now sweep : Int) (pod : Pod)
    (podKey : String) (i : Nat) (status : ContainerStatus) (e : Error)
    (podInfo containerState containerResource podEvents : Bytes) (containerSpec : Container)
    (h1 : c.printPod pod = .ok podInfo) (h2 : c.describeContainerState status = .ok containerState)
    (h3 : pod.Spec.Containers[i]? = some containerSpec)
    (h4 : c.getContainerResource containerSpec = .ok containerResource)
    (h5 : getPodEvents c pod = .ok podEvents) (h6 : getNodeAndEvents c pod = .error e) :
    handleRestarted s c now sweep pod podKey i status = { ret := .err e, slack := s, posts := [] } := by
  simp [handleRestarted, h1, h2, h3, h4, h5, h6]

theorem handleRestarted_logs_error (s : Slack) (c : Collab) (now sweep : Int) (pod : Pod)
    (podKey : String) (i : Nat) (status : ContainerStatus) (e : Error)
    (podInfo containerState containerResource podEvents nodeEvents : Bytes)
    (containerSpec : Container)
    (h1 : c.printPod pod = .ok podInfo) (h2 : c.describeContainerState status = .ok containerState)
    (h3 : pod.Spec.Containers[i]? = some containerSpec)
    (h4 : c.getContainerResource containerSpec = .ok containerResource)
    (h5 : getPodEvents c pod = .ok podEvents) (h6 : getNodeAndEvents c pod = .ok nodeEvents)
    (h7 : getContainerLogs c pod status = .error e) :
    handleRestarted s c now sweep pod podKey i status = { ret := .err e, slack := s, posts := [] } := by
  simp [handleRestarted, h1, h2, h3, h4, h5, h6, h7]

/-- The message `handlePod` hands to `sendToChannel` once every diagnostics step succeeded. -/
theorem handleRestarted_assembled (s : Slack) (c : Collab) (now sweep : Int) (pod : Pod)
    (podKey : String) (i : Nat) (status : ContainerStatus)
    (podInfo containerState containerResource podEvents nodeEvents containerLogs : Bytes)
    (containerSpec : Container)
    (h1 : c.printPod pod = .ok podInfo) (h2 : c.describeContainerState status = .ok containerState)
    (h3 : pod.Spec.Containers[i]? = some containerSpec)
    (h4 : c.getContainerResource containerSpec = .ok containerResource)
    (h5 : getPodEvents c pod = .ok podEvents) (h6 : getNodeAndEvents c pod = .ok nodeEvents)
    (h7 : getContainerLogs c pod status = .ok containerLogs) :
    handleRestarted s c now sweep pod podKey i status =
      match (sendToChannel s c
          (alertMessage s pod
            (messageText
              (podStatusBlock podInfo (printContainerLastStateReason status) containerState
                containerResource) podEvents nodeEvents containerLogs))
          (getSlackChannelFromPod pod)).1 with
      | some err =>
        { ret := .err err, slack := s,
          posts := [(sendToChannel s c
            (alertMessage s pod
              (messageText
                (podStatusBlock podInfo (printContainerLastStateReason status) containerState
                  containerResource) podEvents nodeEvents containerLogs))
            (getSlackChannelFromPod pod)).2] }
      | none =>
        { ret := .nil,
          slack := { s with History := cleanOldSlackHistory sweep (s.History.set podKey now) },
          posts := [(sendToChannel s c
            (alertMessage s pod
              (messageText
                (podStatusBlock podInfo (printContainerLastStateReason status) containerState
                  containerResource) podEvents nodeEvents containerLogs))
            (getSlackChannelFromPod pod)).2] } := by
  simp [handleRestarted, h1, h2, h3, h4, h5, h6, h7]

theorem handleRestarted_posts (s : Slack) (c : Collab) (now sweep : Int) (pod : Pod)
    (podKey : String) (i : Nat) (status : ContainerStatus) (p : Post)
    (hp : p ∈ (handleRestarted s c now sweep pod podKey i status).posts) :
    ∃ podInfo containerState containerSpec containerResource podEvents nodeEvents containerLogs,
      c.printPod pod = .ok podInfo ∧ c.describeContainerState status = .ok containerState ∧
      pod.Spec.Containers[i]? = some containerSpec ∧
      c.getContainerResource containerSpec = .ok containerResource ∧
      getPodEvents c pod = .ok podEvents ∧ getNodeAndEvents c pod = .ok nodeEvents ∧
      getContainerLogs c pod status = .ok containerLogs ∧
      p = (sendToChannel s c
        (alertMessage s pod
          (messageText
            (podStatusBlock podInfo (printContainerLastStateReason status) containerState
              containerResource) podEvents nodeEvents containerLogs))
        (getSlackChannelFromPod pod)).2 := by
  rcases h1 : c.printPod pod with e | podInfo
  · rw [handleRestarted_printPod_error s c now sweep pod podKey i status e h1] at hp
    simp at hp
  rcases h2 : c.describeContainerState status with e | containerState
  · rw [handleRestarted_describe_error s c now sweep pod podKey i status e _ h1 h2] at hp
    simp at hp
  rcases h3 : pod.Spec.Containers[i]? with _ | containerSpec
  · rw [handleRestarted_index_panic s c now sweep pod podKey i status _ _ h1 h2 h3] at hp
    simp at hp
  rcases h4 : c.getContainerResource containerSpec with e | containerResource
  · rw [handleRestarted_resource_error s c now sweep pod podKey i status e _ _ _ h1 h2 h3 h4] at hp
    simp at hp
  rcases h5 : getPodEvents c pod with e | podEvents
  · rw [handleRestarted_podEvents_error s c now sweep pod podKey i status e _ _ _ _ h1 h2 h3 h4 h5] at hp
    simp at hp
  rcases h6 : getNodeAndEvents c pod with e | nodeEvents
  · rw [handleRestarted_nodeEvents_error s c now sweep pod podKey i status e _ _ _ _ _
      h1 h2 h3 h4 h5 h6] at hp
    simp at hp
  rcases h7 : getContainerLogs c pod status with e | containerLogs
  · rw [handleRestarted_logs_error s c now sweep pod podKey i status e _ _ _ _ _ _
      h1 h2 h3 h4 h5 h6 h7] at hp
    simp at hp
  rw [handleRestarted_assembled s c now sweep pod podKey i status _ _ _ _ _ _ _
    h1 h2 h3 h4 h5 h6 h7] at hp
  refine ⟨podInfo, containerState, containerSpec, containerResource, podEvents, nodeEvents,
    containerLogs, rfl, rfl, rfl, h4, rfl, rfl, rfl, ?_⟩
  split at hp <;> simpa using hp

theorem handlePodLoop_cases (s : Slack) (c : Collab) (now sweep : Int) (pod : Pod)
    (podKey : String) (statuses : List ContainerStatus) (i : Nat) :
    ((∀ st ∈ statuses, st.RestartCount = 0) ∧
      handlePodLoop s c now sweep pod podKey i statuses = { ret := .nil, slack := s, posts := [] }) ∨
    (∃ j status, statuses[j]? = some status ∧ status.RestartCount ≠ 0 ∧
      (∀ k st, k < j → statuses[k]? = some st → st.RestartCount = 0) ∧
      handlePodLoop s c now sweep pod podKey i statuses =
        handleRestarted s c now sweep pod podKey (i + j) status) := by
  induction statuses generalizing i with
  | nil => exact Or.inl ⟨by simp, rfl⟩
  | cons status rest ih =>
    by_cases h0 : status.RestartCount = 0
    · rcases ih (i + 1) with ⟨hall, heq⟩ | ⟨j, st, hj, hne, hbefore, heq⟩
      · refine Or.inl ⟨?_, ?_⟩
        · intro st hst
          rcases List.mem_cons.mp hst with rfl | hst
          · exact h0
          · exact hall st hst
        · simp [handlePodLoop, h0, heq]
      · refine Or.inr ⟨j + 1, st, by simpa using hj, hne, ?_, ?_⟩
        · intro k st2 hk hst2
          cases k with
          | zero =>
            simp at hst2
            rw [← hst2]
            exact h0
          | succ k => exact hbefore k st2 (by omega) (by simpa using hst2)
        · simp only [handlePodLoop, h0, if_true, heq]
          congr 1
          omega
    · refine Or.inr ⟨0, status, by simp, h0, ?_, ?_⟩
      · intro k st hk
        omega
      · simp [handlePodLoop, h0]

theorem handlePod_posts (s : Slack) (c : Collab) (now sweep : Int) (pod : Pod) (p : Post)
    (hp : p ∈ (handlePod s c now sweep pod).posts) :
    ∃ j status, FirstRestarted pod j status ∧
      p ∈ (handleRestarted s c now sweep pod (pod.Namespace ++ "/" ++ pod.Name) j status).posts := by
  unfold handlePod at hp
  by_cases hm : isMuted s (pod.Namespace ++ "/" ++ pod.Name) now = true
  · simp [hm] at hp
  · simp only [hm] at hp
    rcases handlePodLoop_cases s c now sweep pod (pod.Namespace ++ "/" ++ pod.Name)
      pod.Status.ContainerStatuses 0 with ⟨_, heq⟩ | ⟨j, st, hj, hne, hbefore, heq⟩
    · simp [heq] at hp
    · refine ⟨j, st, ⟨hj, hne, hbefore⟩, ?_⟩
      simpa [heq] using hp

/-! ### The events block is never cut -/

theorem insertFromRight_perm (less : Event → Event → Bool) (x : Event) (sorted : List Event) :
    (insertFromRight less x sorted).Perm (x :: sorted) := by
  unfold insertFromRight
  have h1 : ((sorted.reverse.dropWhile (less x)).reverse ++
      x :: (sorted.reverse.takeWhile (less x)).reverse).Perm
      (x :: ((sorted.reverse.dropWhile (less x)).reverse ++
        (sorted.reverse.takeWhile (less x)).reverse)) := List.perm_middle
  have h2 : ((sorted.reverse.dropWhile (less x)).reverse ++
      (sorted.reverse.takeWhile (less x)).reverse).Perm sorted := by
    have h3 : ((sorted.reverse.dropWhile (less x)).reverse ++
        (sorted.reverse.takeWhile (less x)).reverse) =
        (sorted.reverse.takeWhile (less x) ++ sorted.reverse.dropWhile (less x)).reverse := by
      rw [List.reverse_append]
    rw [h3, List.takeWhile_append_dropWhile, List.reverse_reverse]
  exact h1.trans (List.Perm.cons x h2)

theorem foldl_insertFromRight_perm (events acc : List Event) :
    (events.foldl (fun sorted x => insertFromRight byLastTimestampLess x sorted) acc).Perm
      (acc ++ events) := by
  induction events generalizing acc with
  | nil => simp
  | cons x rest ih =>
    simp only [List.foldl_cons]
    refine (ih _).trans ?_
    have h := insertFromRight_perm byLastTimestampLess x acc
    refine (List.Perm.append_right rest h).trans ?_
    exact List.perm_middle.symm

theorem sortByLastTimestamp_perm (events : List Event) :
    (sortByLastTimestamp events).Perm events := by
  simpa [sortByLastTimestamp] using foldl_insertFromRight_perm events []

theorem messageBytes_perm (name : String) (l₁ l₂ : List Event) (h : l₁.Perm l₂) :
    messageBytes name l₁ = messageBytes name l₂ :=
  ((h.filter _).map _).sum_eq

theorem eventLines_length (c : Collab) (name : String) (events : List Event) (acc : Bytes) :
    acc.length + messageBytes name events ≤
      (events.foldl
        (fun out event => if event.InvolvedObject.Name = name then out ++ eventLine c event else out)
        acc).length := by
  induction events generalizing acc with
  | nil => simp [messageBytes]
  | cons e rest ih =>
    simp only [List.foldl_cons]
    refine le_trans ?_ (ih _)
    by_cases hn : e.InvolvedObject.Name = name
    · simp only [hn, if_true, messageBytes, List.filter_cons, decide_True, List.map_cons,
        List.sum_cons, List.length_append, eventLine]
      omega
    · simp [hn, messageBytes, List.filter_cons]

/-- `getPodEvents` keeps every event about the pod whole: its result is at least
as long as the messages of those events together. -/
theorem getPodEvents_length (c : Collab) (pod : Pod) (events : List Event)
    (h : c.listEvents pod.Namespace "type!=Normal" = .ok events) :
    ∃ podEvents, getPodEvents c pod = .ok podEvents ∧
      messageBytes pod.Name events ≤ podEvents.length := by
  have hsorted : messageBytes pod.Name (if events.length > 1 then sortByLastTimestamp events else events)
      = messageBytes pod.Name events := by
    split
    · exact messageBytes_perm _ _ _ (sortByLastTimestamp_perm events)
    · rfl
  have hlen := eventLines_length c pod.Name
    (if events.length > 1 then sortByLastTimestamp events else events) []
  rw [hsorted] at hlen
  simp only [getPodEvents, h]
  generalize (if events.length > 1 then sortByLastTimestamp events else events) = sortedEvents
    at hlen ⊢
  generalize List.foldl _ [] sortedEvents = out at hlen ⊢
  simp only [List.length_nil, Nat.zero_add] at hlen
  by_cases hout : out = []
  · refine ⟨_, if_pos hout, ?_⟩
    rw [hout, List.length_nil] at hlen
    omega
  · refine ⟨_, if_neg hout, ?_⟩
    simp only [List.length_append]
    omega

theorem messageText_length_of_long_lead (podStatus podEvents nodeEvents containerLogs : Bytes)
    (hne : containerLogs ≠ []) (hlead : 7500 ≤ (podStatus ++ podEvents ++ nodeEvents).length) :
    (messageText podStatus podEvents nodeEvents containerLogs).length =
      (podStatus ++ podEvents ++ nodeEvents).length + 36 + containerLogs.length := by
  rw [messageText_length, logBlock_length_of_nonempty _ _ hne, keptLogs_of_fit _ _ (Or.inl hlead)]
  omega

/-- C7 as stated fails: eight warning events of 950 bytes each make the text
before the log block longer than 7500 bytes, `maxLogLength` is then not
positive, the log of 5000 bytes is appended whole, and the text handed to
`sendToChannel` and delivered is longer than 8000 bytes. -/
theorem text_over_ceiling :
    ∃ p ∈ (handlePod {} noisyCollab 0 0 (samplePod "default" "web-1" 1)).posts,
      p.delivered = true ∧ p.msg.Text.length > 8000 := by
  obtain ⟨podEvents, hpe, hlen⟩ := getPodEvents_length noisyCollab (samplePod "default" "web-1" 1)
    (List.replicate 8
      { LastTimestamp := 0, InvolvedObject := { Name := "web-1" }, Reason := str "BackOff",
        Message := List.replicate 950 120 }) rfl
  have hsum : messageBytes (samplePod "default" "web-1" 1).Name
      (List.replicate 8
        { LastTimestamp := 0, InvolvedObject := { Name := "web-1" }, Reason := str "BackOff",
          Message := List.replicate 950 120 }) = 7600 := by
    set_option maxRecDepth 20000 in decide
  rw [hsum] at hlen
  obtain ⟨nodeEvents, hnode⟩ :
      ∃ nodeEvents, getNodeAndEvents noisyCollab (samplePod "default" "web-1" 1) = .ok nodeEvents :=
    ⟨_, rfl⟩
  have hrun : handlePod {} noisyCollab 0 0 (samplePod "default" "web-1" 1) =
      handleRestarted {} noisyCollab 0 0 (samplePod "default" "web-1" 1) "default/web-1" 0
        { Name := "app", RestartCount := 1 } := by
    rfl
  rw [hrun, handleRestarted_assembled {} noisyCollab 0 0 (samplePod "default" "web-1" 1)
    "default/web-1" 0 { Name := "app", RestartCount := 1 } _ _ _ podEvents nodeEvents
    (List.replicate 5000 120) { Name := "app" } rfl rfl rfl rfl hpe hnode rfl]
  refine ⟨_, List.mem_singleton.mpr rfl, rfl, ?_⟩
  show (messageText _ podEvents nodeEvents (List.replicate 5000 120)).length > 8000
  rw [messageText_length_of_long_lead _ _ _ _ (by decide)
    (by simp only [List.length_append]; omega)]
  simp only [List.length_append, List.length_replicate]
  omega

/-- C7, amended: the text of every message `handlePod` hands to `sendToChannel` is
`podStatus + podEvents + nodeEvents` followed by the log block, put together
from the diagnostics of the first restarted container, and whenever
`podStatus + podEvents + nodeEvents` is shorter than 7500 bytes it has at most
7536 bytes, within the ceiling of 8000. -/
theorem text_within_ceiling (s : Slack) (c : Collab) (now sweep : Int) (pod : Pod) (p : Post)
    (hp : p ∈ (handlePod s c now sweep pod).posts) :
    ∃ j status podInfo containerState containerSpec containerResource podEvents nodeEvents
        containerLogs,
      FirstRestarted pod j status ∧
      c.printPod pod = .ok podInfo ∧ c.describeContainerState status = .ok containerState ∧
      pod.Spec.Containers[j]? = some containerSpec ∧
      c.getContainerResource containerSpec = .ok containerResource ∧
      getPodEvents c pod = .ok podEvents ∧ getNodeAndEvents c pod = .ok nodeEvents ∧
      getContainerLogs c pod status = .ok containerLogs ∧
      p.msg.Text = messageText
        (podStatusBlock podInfo (printContainerLastStateReason status) containerState
          containerResource) podEvents nodeEvents containerLogs ∧
      ((podStatusBlock podInfo (printContainerLastStateReason status) containerState
          containerResource ++ podEvents ++ nodeEvents).length < 7500 →
        p.msg.Text.length ≤ 7536 ∧ p.msg.Text.length ≤ 8000) := by
  obtain ⟨j, status, hfirst, hmem⟩ := handlePod_posts s c now sweep pod p hp
  obtain ⟨podInfo, containerState, containerSpec, containerResource, podEvents, nodeEvents,
    containerLogs, h1, h2, h3, h4, h5, h6, h7, hpost⟩ :=
    handleRestarted_posts s c now sweep pod _ j status p hmem
  have htext : p.msg.Text = messageText (podStatusBlock podInfo
      (printContainerLastStateReason status) containerState containerResource) podEvents
      nodeEvents containerLogs := by
    rw [hpost]
    simp only [sendToChannel, alertMessage]
    split <;> rfl
  refine ⟨j, status, podInfo, containerState, containerSpec, containerResource, podEvents,
    nodeEvents, containerLogs, hfirst, h1, h2, h3, h4, h5, h6, h7, htext, ?_⟩
  intro hlead
  have hlen := messageText_length_le (podStatusBlock podInfo (printContainerLastStateReason status)
    containerState containerResource) podEvents nodeEvents containerLogs hlead
  rw [htext]
  omega

/-- C7 amended, at the pod `default/web-1` with quiet collaborators: a message is
posted, and its text is within the ceiling. -/
theorem text_within_ceiling_witness :
    ∃ p, p ∈ (handlePod {} quietCollab 0 0 (samplePod "default" "web-1" 1)).posts ∧
      p.msg.Text.length ≤ 8000 := by
  obtain ⟨p, hp⟩ := List.exists_mem_of_ne_nil
    (handlePod {} quietCollab 0 0 (samplePod "default" "web-1" 1)).posts (by decide)
  obtain ⟨j, status, podInfo, containerState, containerSpec, containerResource, podEvents,
    nodeEvents, containerLogs, hfirst, h1, h2, h3, h4, h5, h6, h7, htext, hbound⟩ :=
    text_within_ceiling {} quietCollab 0 0 (samplePod "default" "web-1" 1) p hp
  refine ⟨p, hp, (hbound ?_).2⟩
  have e1 : podInfo = str "NAME READY STATUS RESTARTS AGE\n" := by
    have : quietCollab.printPod (samplePod "default" "web-1" 1) =
        .ok (str "NAME READY STATUS RESTARTS AGE\n") := rfl
    rw [this] at h1
    exact (Except.ok.inj h1).symm
  have e2 : containerState = str "app:\n" := by
    have : quietCollab.describeContainerState status = .ok (str "app:\n") := rfl
    rw [this] at h2
    exact (Except.ok.inj h2).symm
  have e4 : containerResource = [] := by
    have : quietCollab.getContainerResource containerSpec = .ok [] := rfl
    rw [this] at h4
    exact (Except.ok.inj h4).symm
  have e5 : podEvents = str "• No Warning Pod Events\n" := by
    have : getPodEvents quietCollab (samplePod "default" "web-1" 1) =
        .ok (str "• No Warning Pod Events\n") := rfl
    rw [this] at h5
    exact (Except.ok.inj h5).symm
  have e6 : nodeEvents.length = 59 := by
    have : (getNodeAndEvents quietCollab (samplePod "default" "web-1" 1)).toOption.map List.length =
        some 59 := by decide
    rw [h6] at this
    simpa [Except.toOption] using this
  have e0 : status = { Name := "app", RestartCount := 1 } := by
    have hj := hfirst.1
    have hlt : j < 1 := by
      by_contra hge
      have : (samplePod "default" "web-1" 1).Status.ContainerStatuses[j]? = none :=
        List.getElem?_eq_none (by simp [samplePod]; omega)
      rw [this] at hj
      exact absurd hj (by simp)
    have hj0 : j = 0 := by omega
    subst hj0
    simpa [samplePod] using hj.symm
  subst e0 e1 e2 e4 e5
  simp only [List.length_append, e6, podStatusBlock]
  decide

/-! ### The log text that is kept -/

theorem keptLogs_suffix (lead containerLogs : Bytes) :
    keptLogs lead containerLogs <:+ containerLogs := by
  by_cases h : lead.length < 7500 ∧ lead.length + containerLogs.length > 7500
  · rw [keptLogs_of_cut lead containerLogs h.1 h.2]
    exact List.drop_suffix _ _
  · rw [keptLogs_of_fit lead containerLogs (by omega)]

/-- C8 as stated fails: with 7490 bytes before the log block, the log
`first line\nsecond line\n` (23 bytes) is cut to its last 10 bytes,
`cond line\n`, which start in the middle of the second line. -/
theorem kept_log_starts_mid_line :
    keptLogs (List.replicate 7490 97) (str "first line\nsecond line\n") = str "cond line\n" ∧
      ¬ KeepsWholeLines (str "first line\nsecond line\n")
        (keptLogs (List.replicate 7490 97) (str "first line\nsecond line\n")) := by
  have h : keptLogs (List.replicate 7490 97) (str "first line\nsecond line\n") = str "cond line\n" := by
    rw [keptLogs_of_cut _ _ (by simp only [List.length_replicate]; decide)
      (by simp only [List.length_replicate]; decide)]
    simp only [List.length_replicate]
    decide
  refine ⟨h, ?_⟩
  rw [h]
  decide

/-- C8, amended: the log text that `handlePod` places inside the log block is a
suffix of the raw log; it is the whole raw log when no cut applies (nothing is
left of the budget of 7500 bytes, or the log fits into what is left), and
otherwise exactly the last `7500 - len(podStatus+podEvents+nodeEvents)` bytes of
the raw log, wherever in a line that cut falls. -/
theorem kept_log_is_suffix (lead containerLogs : Bytes) :
    keptLogs lead containerLogs <:+ containerLogs ∧
    (containerLogs ≠ [] →
      logBlock lead containerLogs =
        str "• Pod Logs Before Restart\n```\n" ++ keptLogs lead containerLogs ++ str "```\n") ∧
    (7500 ≤ lead.length ∨ lead.length + containerLogs.length ≤ 7500 →
      keptLogs lead containerLogs = containerLogs) ∧
    (lead.length < 7500 → lead.length + containerLogs.length > 7500 →
      keptLogs lead containerLogs =
          containerLogs.drop (containerLogs.length - (7500 - lead.length)) ∧
        (keptLogs lead containerLogs).length = 7500 - lead.length) := by
  refine ⟨keptLogs_suffix lead containerLogs, ?_, keptLogs_of_fit lead containerLogs, ?_⟩
  · intro hne
    simp [logBlock, hne]
  · intro hlead hover
    refine ⟨keptLogs_of_cut lead containerLogs hlead hover, ?_⟩
    rw [keptLogs_of_cut lead containerLogs hlead hover, List.length_drop]
    omega

/-- C8 amended, at 7490 bytes before the log `first line\nsecond line\n`: the
last 10 bytes are kept. -/
theorem kept_log_is_suffix_witness :
    (keptLogs (List.replicate 7490 97) (str "first line\nsecond line\n")).length = 10 :=
  ((kept_log_is_suffix (List.replicate 7490 97) (str "first line\nsecond line\n")).2.2.2
    (by simp only [List.length_replicate]; decide)
    (by simp only [List.length_replicate]; decide)).2.trans
    (by simp only [List.length_replicate])

/-! ### The channel -/

theorem sendToChannel_channel (s : Slack) (c : Collab) (msg : SlackMessage)
    (slackChannel : String) :
    (sendToChannel s c msg slackChannel).2.msg.Channel =
      if slackChannel ≠ "" then slackChannel else s.DefaultChannel := by
  unfold sendToChannel
  dsimp only
  split <;> rfl

/-- C9 as stated fails: for a pod whose annotation `alert-slack-channel` is
present with an empty value, the notification goes to the default channel,
not to the annotation's value (and the pod's label is not consulted). -/
theorem empty_annotation_goes_to_default :
    ((handlePod {} quietCollab 0 0 emptyAnnotationPod).posts.map fun p => p.msg.Channel) =
        ["restart-info-nonprod"] ∧
      channelByPrecedence emptyAnnotationPod "restart-info-nonprod" = "" := by
  constructor <;> decide

/-- C9, amended: every notification of `handlePod` goes to the value of the pod
annotation `alert-slack-channel` if the pod has that annotation, otherwise to
the value of the pod label `alert-slack-channel` if the pod has that label,
provided the value so chosen is not empty; when the chosen value is empty, or
the pod has neither, it goes to the configured default channel. -/
theorem channel_resolution (s : Slack) (c : Collab) (now sweep : Int) (pod : Pod) (p : Post)
    (hp : p ∈ (handlePod s c now sweep pod).posts) :
    p.msg.Channel =
      (if channelByPrecedence pod "" ≠ "" then channelByPrecedence pod "" else s.DefaultChannel) ∧
    (channelByPrecedence pod "" ≠ "" →
      p.msg.Channel = channelByPrecedence pod s.DefaultChannel) ∧
    (pod.Annotations.lookup SlackChannelKey = none → pod.Labels.lookup SlackChannelKey = none →
      p.msg.Channel = s.DefaultChannel) := by
  obtain ⟨j, status, _, hmem⟩ := handlePod_posts s c now sweep pod p hp
  obtain ⟨_, _, _, _, _, _, _, _, _, _, _, _, _, _, hpost⟩ :=
    handleRestarted_posts s c now sweep pod _ j status p hmem
  have hch : p.msg.Channel =
      if getSlackChannelFromPod pod ≠ "" then getSlackChannelFromPod pod else s.DefaultChannel := by
    rw [hpost]
    exact sendToChannel_channel s c _ _
  have hsame : getSlackChannelFromPod pod = channelByPrecedence pod "" := by
    unfold getSlackChannelFromPod channelByPrecedence
    rfl
  rw [hsame] at hch
  refine ⟨hch, ?_, ?_⟩
  · intro hne
    rw [hch, if_pos hne]
    revert hne
    unfold channelByPrecedence
    cases pod.Annotations.lookup SlackChannelKey with
    | some a => intro _; rfl
    | none =>
      cases pod.Labels.lookup SlackChannelKey with
      | some l => intro _; rfl
      | none => intro h; exact absurd rfl h
  · intro ha hl
    rw [hch]
    simp [channelByPrecedence, ha, hl]

/-- C9 amended, at a pod with the label `alert-slack-channel: team-web` and no
annotation: the notification goes to `team-web`. -/
theorem channel_resolution_witness :
    ∃ p, p ∈ (handlePod {} quietCollab 0 0 labelledPod).posts ∧ p.msg.Channel = "team-web" := by
  obtain ⟨p, hp⟩ := List.exists_mem_of_ne_nil
    (handlePod {} quietCollab 0 0 labelledPod).posts (by decide)
  exact ⟨p, hp, ((channel_resolution {} quietCollab 0 0 labelledPod p hp).2.1 (by decide)).trans
    (by decide)⟩

/-! ### Errors -/

theorem sendToChannel_error (s : Slack) (c : Collab) (msg : SlackMessage) (slackChannel : String)
    (e : Error) (h : (sendToChannel s c msg slackChannel).1 = some e) :
    (sendToChannel s c msg slackChannel).2.delivered = false ∧
      c.postWebhook (sendToChannel s c msg slackChannel).2.msg = some e := by
  unfold sendToChannel at h ⊢
  dsimp only at h ⊢
  split at h
  · rename_i err heq
    have he : err = e := by simpa using h
    subst he
    rw [heq]
    exact ⟨rfl, rfl⟩
  · simp at h

theorem handlePodLoop_first (s : Slack) (c : Collab) (now sweep : Int) (pod : Pod)
    (podKey : String) (statuses : List ContainerStatus) (i j : Nat) (status : ContainerStatus)
    (hj : statuses[j]? = some status) (hne : status.RestartCount ≠ 0)
    (hbefore : ∀ k st, k < j → statuses[k]? = some st → st.RestartCount = 0) :
    handlePodLoop s c now sweep pod podKey i statuses =
      handleRestarted s c now sweep pod podKey (i + j) status := by
  induction statuses generalizing i j with
  | nil => simp at hj
  | cons st rest ih =>
    cases j with
    | zero =>
      simp at hj
      subst hj
      simp [handlePodLoop, hne]
    | succ j =>
      have h0 : st.RestartCount = 0 := hbefore 0 st (by omega) (by simp)
      simp only [handlePodLoop, h0, if_true]
      rw [ih (i + 1) j (by simpa using hj)
        (fun k st2 hk hst2 => hbefore (k + 1) st2 (by omega) (by simpa using hst2))]
      congr 1
      omega

theorem handlePod_of_first (s : Slack) (c : Collab) (now sweep : Int) (pod : Pod)
    (j : Nat) (status : ContainerStatus)
    (hm : isMuted s (pod.Namespace ++ "/" ++ pod.Name) now = false)
    (hfirst : FirstRestarted pod j status) :
    handlePod s c now sweep pod =
      handleRestarted s c now sweep pod (pod.Namespace ++ "/" ++ pod.Name) j status := by
  rw [handlePod_of_not_muted s c now sweep pod hm,
    handlePodLoop_first s c now sweep pod _ _ 0 j status hfirst.1 hfirst.2.1 hfirst.2.2]
  congr 1
  omega

theorem handleRestarted_of_assemblyFails (s : Slack) (c : Collab) (now sweep : Int) (pod : Pod)
    (podKey : String) (i : Nat) (status : ContainerStatus) (e : Error)
    (h : AssemblyFailsWith c pod i status e) :
    handleRestarted s c now sweep pod podKey i status = { ret := .err e, slack := s, posts := [] } := by
  rcases h with h1 | ⟨podInfo, h1, h⟩
  · exact handleRestarted_printPod_error s c now sweep pod podKey i status e h1
  rcases h with h2 | ⟨containerState, h2, containerSpec, h3, h⟩
  · exact handleRestarted_describe_error s c now sweep pod podKey i status e _ h1 h2
  rcases h with h4 | ⟨containerResource, h4, h⟩
  · exact handleRestarted_resource_error s c now sweep pod podKey i status e _ _ _ h1 h2 h3 h4
  rcases h with h5 | ⟨podEvents, h5, h⟩
  · exact handleRestarted_podEvents_error s c now sweep pod podKey i status e _ _ _ _ h1 h2 h3 h4 h5
  rcases h with h6 | ⟨nodeEvents, h6, h7⟩
  · exact handleRestarted_nodeEvents_error s c now sweep pod podKey i status e _ _ _ _ _
      h1 h2 h3 h4 h5 h6
  · exact handleRestarted_logs_error s c now sweep pod podKey i status e _ _ _ _ _ _
      h1 h2 h3 h4 h5 h6 h7

theorem handleRestarted_of_assembled (s : Slack) (c : Collab) (now sweep : Int) (pod : Pod)
    (podKey : String) (i : Nat) (status : ContainerStatus) (text : Bytes)
    (h : Assembled c pod i status text) :
    handleRestarted s c now sweep pod podKey i status =
      match (sendToChannel s c (alertMessage s pod text) (getSlackChannelFromPod pod)).1 with
      | some err =>
        { ret := .err err, slack := s,
          posts := [(sendToChannel s c (alertMessage s pod text) (getSlackChannelFromPod pod)).2] }
      | none =>
        { ret := .nil,
          slack := { s with History := cleanOldSlackHistory sweep (s.History.set podKey now) },
          posts := [(sendToChannel s c (alertMessage s pod text) (getSlackChannelFromPod pod)).2] } := by
  obtain ⟨podInfo, containerState, containerSpec, containerResource, podEvents, nodeEvents,
    containerLogs, h1, h2, h3, h4, h5, h6, h7, rfl⟩ := h
  exact handleRestarted_assembled s c now sweep pod podKey i status _ _ _ _ _ _ _
    h1 h2 h3 h4 h5 h6 h7

/-- Either a diagnostics step fails, or indexing `pod.Spec.Containers` panics, or
the message is assembled. -/
theorem assembly_cases (c : Collab) (pod : Pod) (i : Nat) (status : ContainerStatus) :
    (∃ e, AssemblyFailsWith c pod i status e) ∨
      (∃ podInfo containerState, c.printPod pod = .ok podInfo ∧
        c.describeContainerState status = .ok containerState ∧ pod.Spec.Containers[i]? = none) ∨
      (∃ text, Assembled c pod i status text) := by
  unfold AssemblyFailsWith Assembled
  rcases h1 : c.printPod pod with e | podInfo
  · exact Or.inl ⟨e, Or.inl rfl⟩
  rcases h2 : c.describeContainerState status with e | containerState
  · exact Or.inl ⟨e, Or.inr ⟨podInfo, rfl, Or.inl rfl⟩⟩
  rcases h3 : pod.Spec.Containers[i]? with _ | containerSpec
  · exact Or.inr (Or.inl ⟨podInfo, containerState, rfl, rfl, rfl⟩)
  rcases h4 : c.getContainerResource containerSpec with e | containerResource
  · exact Or.inl ⟨e, Or.inr ⟨podInfo, rfl, Or.inr ⟨containerState, rfl, containerSpec, rfl,
      Or.inl h4⟩⟩⟩
  rcases h5 : getPodEvents c pod with e | podEvents
  · exact Or.inl ⟨e, Or.inr ⟨podInfo, rfl, Or.inr ⟨containerState, rfl, containerSpec, rfl,
      Or.inr ⟨containerResource, h4, Or.inl rfl⟩⟩⟩⟩
  rcases h6 : getNodeAndEvents c pod with e | nodeEvents
  · exact Or.inl ⟨e, Or.inr ⟨podInfo, rfl, Or.inr ⟨containerState, rfl, containerSpec, rfl,
      Or.inr ⟨containerResource, h4, Or.inr ⟨podEvents, rfl, Or.inl rfl⟩⟩⟩⟩⟩
  rcases h7 : getContainerLogs c pod status with e | containerLogs
  · exact Or.inl ⟨e, Or.inr ⟨podInfo, rfl, Or.inr ⟨containerState, rfl, containerSpec, rfl,
      Or.inr ⟨containerResource, h4, Or.inr ⟨podEvents, rfl, Or.inr ⟨nodeEvents, rfl, rfl⟩⟩⟩⟩⟩⟩
  · exact Or.inr (Or.inr ⟨_, podInfo, containerState, containerSpec, containerResource, podEvents,
      nodeEvents, containerLogs, rfl, rfl, rfl, h4, rfl, rfl, rfl, rfl⟩)

theorem handlePod_error_source (s : Slack) (c : Collab) (now sweep : Int) (pod : Pod) (e : Error)
    (h : (handlePod s c now sweep pod).ret = .err e) :
    (handlePod s c now sweep pod).slack = s ∧
      (∀ p ∈ (handlePod s c now sweep pod).posts, p.delivered = false) ∧
      ∃ j status, FirstRestarted pod j status ∧
        ((AssemblyFailsWith c pod j status e ∧ (handlePod s c now sweep pod).posts = []) ∨
          ∃ text, Assembled c pod j status text ∧
            (sendToChannel s c (alertMessage s pod text) (getSlackChannelFromPod pod)).1 = some e) := by
  by_cases hm : isMuted s (pod.Namespace ++ "/" ++ pod.Name) now = true
  · rw [(handlePod_of_muted s c now sweep pod hm).1] at h
    exact absurd h (by simp)
  have hm : isMuted s (pod.Namespace ++ "/" ++ pod.Name) now = false := by simpa using hm
  rw [handlePod_of_not_muted s c now sweep pod hm] at h ⊢
  rcases handlePodLoop_cases s c now sweep pod (pod.Namespace ++ "/" ++ pod.Name)
    pod.Status.ContainerStatuses 0 with ⟨_, heq⟩ | ⟨j, status, hj, hne, hbefore, heq⟩
  · rw [heq] at h
    exact absurd h (by simp)
  rw [Nat.zero_add] at heq
  rw [heq] at h ⊢
  rcases assembly_cases c pod j status with ⟨e1, hfail⟩ | ⟨podInfo, containerState, h1, h2, h3⟩ |
    ⟨text, hasm⟩
  · rw [handleRestarted_of_assemblyFails s c now sweep pod _ j status e1 hfail] at h ⊢
    have he : e1 = e := by simpa using h
    subst he
    exact ⟨rfl, by simp, j, status, ⟨hj, hne, hbefore⟩, Or.inl ⟨hfail, rfl⟩⟩
  · rw [handleRestarted_index_panic s c now sweep pod _ j status _ _ h1 h2 h3] at h
    exact absurd h (by simp)
  · rw [handleRestarted_of_assembled s c now sweep pod _ j status text hasm] at h ⊢
    split at h
    · rename_i err hsend
      have he : err = e := by simpa using h
      subst he
      refine ⟨rfl, ?_, j, status, ⟨hj, hne, hbefore⟩, Or.inr ⟨text, hasm, hsend⟩⟩
      intro p hp
      have hp2 : p = (sendToChannel s c (alertMessage s pod text) (getSlackChannelFromPod pod)).2 := by
        simpa using hp
      rw [hp2]
      exact (sendToChannel_error s c _ _ err hsend).1
    · exact absurd h (by simp)

/-- C10: whenever `handlePod` returns an error, it is the error of the
diagnostics step that failed (pod summary, container state, resources, pod
events, node lookup and events, log fetch) or of the dispatch, the `Slack` value
and with it the ledger `History` is as before the call, and no post of the call
was delivered; when a diagnostics step fails, `handlePod` returns exactly that
error and makes no post at all; when the dispatch fails, `handlePod` returns
exactly the error of `sendToChannel`; and `getAndHandlePod` hands on what
`handlePod` returns. -/
theorem error_propagation (s : Slack) (c : Collab) (now sweep : Int) (pod : Pod) :
    (∀ e, (handlePod s c now sweep pod).ret = .err e →
      (handlePod s c now sweep pod).slack = s ∧
      (∀ p ∈ (handlePod s c now sweep pod).posts, p.delivered = false) ∧
      ∃ j status, FirstRestarted pod j status ∧
        ((AssemblyFailsWith c pod j status e ∧ (handlePod s c now sweep pod).posts = []) ∨
          ∃ text, Assembled c pod j status text ∧
            (sendToChannel s c (alertMessage s pod text) (getSlackChannelFromPod pod)).1 = some e)) ∧
    (∀ j status e, isMuted s (pod.Namespace ++ "/" ++ pod.Name) now = false →
      FirstRestarted pod j status → AssemblyFailsWith c pod j status e →
      handlePod s c now sweep pod = { ret := .err e, slack := s, posts := [] }) ∧
    (∀ j status text e, isMuted s (pod.Namespace ++ "/" ++ pod.Name) now = false →
      FirstRestarted pod j status → Assembled c pod j status text →
      (sendToChannel s c (alertMessage s pod text) (getSlackChannelFromPod pod)).1 = some e →
      (handlePod s c now sweep pod).ret = .err e ∧ (handlePod s c now sweep pod).slack = s ∧
        (handlePod s c now sweep pod).posts =
          [(sendToChannel s c (alertMessage s pod text) (getSlackChannelFromPod pod)).2] ∧
        (sendToChannel s c (alertMessage s pod text) (getSlackChannelFromPod pod)).2.delivered
          = false) ∧
    (∀ (lookup : String → Except Error (Option Obj)) (key : String),
      getPodFromIndexer lookup key = .ok pod →
      getAndHandlePod lookup s c now sweep key = handlePod s c now sweep pod) := by
  refine ⟨fun e h => handlePod_error_source s c now sweep pod e h, ?_, ?_, ?_⟩
  · intro j status e hm hfirst hfail
    rw [handlePod_of_first s c now sweep pod j status hm hfirst]
    exact handleRestarted_of_assemblyFails s c now sweep pod _ j status e hfail
  · intro j status text e hm hfirst hasm hsend
    rw [handlePod_of_first s c now sweep pod j status hm hfirst,
      handleRestarted_of_assembled s c now sweep pod _ j status text hasm, hsend]
    exact ⟨rfl, rfl, rfl, (sendToChannel_error s c _ _ e hsend).1⟩
  · intro lookup key hget
    simp [getAndHandlePod, hget]

/-- C10 at the pod `default/web-1`: when its node is gone, the node lookup fails
with `node not found` and `handlePod` returns that error, posts nothing and
leaves the `Slack` value alone; when the web hook is down, `handlePod` returns
the error of the post. -/
theorem error_propagation_witness :
    handlePod {} nodeGoneCollab 0 0 (samplePod "default" "web-1" 1) =
        { ret := .err "node not found", slack := {}, posts := [] } ∧
      (handlePod {} hookDownCollab 0 0 (samplePod "default" "web-1" 1)).ret =
        .err "connection refused" :=
  ⟨(error_propagation {} nodeGoneCollab 0 0 (samplePod "default" "web-1" 1)).2.1 0
      { Name := "app", RestartCount := 1 } "node not found" (by decide)
      ⟨rfl, by decide, fun k st hk => by omega⟩
      (Or.inr ⟨_, rfl, Or.inr ⟨_, rfl, _, rfl, Or.inr ⟨_, rfl, Or.inr ⟨_, rfl, Or.inl rfl⟩⟩⟩⟩),
    ((error_propagation {} hookDownCollab 0 0 (samplePod "default" "web-1" 1)).2.2.1 0
      { Name := "app", RestartCount := 1 } _ "connection refused" (by decide)
      ⟨rfl, by decide, fun k st hk => by omega⟩
      ⟨_, _, _, _, _, _, _, rfl, rfl, rfl, rfl, rfl, rfl, rfl, rfl⟩ rfl).1⟩

/-! ### The sweep -/

theorem moreThanOneHour_sub (now t : Int) :
    Duration.moreThanOneHour (Time.Sub now t) = decide (now - t > Hour) := by
  have hmax : maxDuration = 9223372036854775807 := by decide
  have hmin : minDuration = -9223372036854775808 := by decide
  have hH : Hour = 3600000000000 := by decide
  unfold Duration.moreThanOneHour Time.Sub
  by_cases h1 : now - t > maxDuration
  · rw [if_pos h1]
    rw [hmax] at h1 ⊢
    rw [hH]
    simp only [decide_eq_decide]
    constructor <;> intro _ <;> omega
  · rw [if_neg h1]
    by_cases h2 : now - t < minDuration
    · rw [if_pos h2]
      rw [hmin] at h2 ⊢
      rw [hH]
      simp only [decide_eq_decide]
      constructor <;> intro _ <;> omega
    · rw [if_neg h2]

theorem cleanOldSlackHistory_of_recent (now : Int) (history : History) (key : String) (t : Int)
    (h : history key = some t) (hage : now - t ≤ Hour) :
    cleanOldSlackHistory now history key = some t := by
  have : ¬ now - t > Hour := by omega
  simp [cleanOldSlackHistory, h, moreThanOneHour_sub, this]

theorem cleanOldSlackHistory_of_old (now : Int) (history : History) (key : String) (t : Int)
    (h : history key = some t) (hage : now - t > Hour) :
    cleanOldSlackHistory now history key = none := by
  simp [cleanOldSlackHistory, h, moreThanOneHour_sub, hage]

theorem cleanOldSlackHistory_of_none (now : Int) (history : History) (key : String)
    (h : history key = none) : cleanOldSlackHistory now history key = none := by
  simp [cleanOldSlackHistory, h]

theorem cleanOldSlackHistory_some (now : Int) (history : History) (key : String) (t : Int)
    (h : cleanOldSlackHistory now history key = some t) :
    history key = some t ∧ now - t ≤ Hour := by
  cases hk : history key with
  | none => rw [cleanOldSlackHistory_of_none now history key hk] at h; exact absurd h (by simp)
  | some u =>
    by_cases hage : now - u > Hour
    · rw [cleanOldSlackHistory_of_old now history key u hk hage] at h
      exact absurd h (by simp)
    · rw [cleanOldSlackHistory_of_recent now history key u hk (by omega)] at h
      have hu : u = t := Option.some.inj h
      subst hu
      exact ⟨rfl, by omega⟩

/-- C14: after `cleanOldSlackHistory` at clock reading `now`, the ledger holds
exactly the entries of the ledger before whose age `now - timestamp` is at most
one hour, with their timestamps: such an entry stays as it is, an entry older
than one hour is gone, and every entry found afterwards was there before with
the same timestamp and is at most one hour old (nothing is added). -/
theorem sweep_keeps_exactly_recent (now : Int) (history : History) (key : String) :
    (∀ t, history key = some t → now - t ≤ Hour →
      cleanOldSlackHistory now history key = some t) ∧
    (∀ t, history key = some t → now - t > Hour →
      cleanOldSlackHistory now history key = none) ∧
    (∀ t, cleanOldSlackHistory now history key = some t →
      history key = some t ∧ now - t ≤ Hour) ∧
    (history key = none → cleanOldSlackHistory now history key = none) :=
  ⟨fun t h hage => cleanOldSlackHistory_of_recent now history key t h hage,
    fun t h hage => cleanOldSlackHistory_of_old now history key t h hage,
    fun t h => cleanOldSlackHistory_some now history key t h,
    fun h => cleanOldSlackHistory_of_none now history key h⟩

/-- C14 at a ledger with two entries, swept at second 7200.000000001: the entry
that is exactly one hour old stays, the entry one nanosecond older is removed. -/
theorem sweep_keeps_exactly_recent_witness :
    cleanOldSlackHistory (7200 * Second + 1) twoEntries "default/web-1" =
        some (3600 * Second + 1) ∧
      cleanOldSlackHistory (7200 * Second + 1) twoEntries "default/api-1" = none :=
  ⟨(sweep_keeps_exactly_recent (7200 * Second + 1) twoEntries "default/web-1").1
      (3600 * Second + 1) (by decide) (by decide),
    (sweep_keeps_exactly_recent (7200 * Second + 1) twoEntries "default/api-1").2.1
      (3600 * Second) (by decide) (by decide)⟩

/-- With a mute window of at most one hour the sweep leaves the mute gate's
decision alone at every later clock reading. -/
theorem isMuted_after_sweep (s : Slack) (key : String) (sweepTime now : Int)
    (hmute : s.MuteSeconds ≤ 3600) (hle : sweepTime ≤ now) :
    isMuted { s with History := cleanOldSlackHistory sweepTime s.History } key now =
      isMuted s key now := by
  have hmax : maxDuration = 9223372036854775807 := by decide
  have hmin : minDuration = -9223372036854775808 := by decide
  have hH : Hour = 3600000000000 := by decide
  have hS : Second = 1000000000 := rfl
  cases hk : s.History key with
  | none => simp [isMuted, cleanOldSlackHistory_of_none sweepTime s.History key hk, hk]
  | some t =>
    by_cases hage : sweepTime - t > Hour
    · have hgone := cleanOldSlackHistory_of_old sweepTime s.History key t hk hage
      have hnot : ¬ Duration.wholeSeconds (Time.Sub now t) < s.MuteSeconds := by
        have hd : Time.Sub now t ≥ 3600000000001 := by
          unfold Time.Sub
          rw [hmax, hmin]
          rw [hH] at hage
          split
          · omega
          · split
            · omega
            · omega
        have hnn : 0 ≤ Time.Sub now t := by omega
        rw [wholeSeconds_lt_iff _ _ (Or.inr hnn) (by omega) (Time.Sub_le now t), hS]
        omega
      simp [isMuted, hgone, hk, hnot]
    · have hkept := cleanOldSlackHistory_of_recent sweepTime s.History key t hk (by omega)
      simp [isMuted, hkept, hk]

/-- C15 (the code at the failing input): with `MuteSeconds = 7200` and an alert
for `default/web-1` at second 0, the gate at second 6000 mutes the pod on the
ledger as it is, and lets it through on the ledger after `cleanOldSlackHistory`
ran at second 5400: the sweep removed an entry still inside its mute window. -/
theorem sweep_changes_gate :
    5400 * Second ≤ 6000 * Second ∧
      isMuted longMuteAlerted "default/web-1" (6000 * Second) = true ∧
      isMuted { longMuteAlerted with
          History := cleanOldSlackHistory (5400 * Second) longMuteAlerted.History }
        "default/web-1" (6000 * Second) = false := by
  refine ⟨by decide, by decide, by decide⟩

/-! ### A successful alert -/

theorem sendToChannel_ok (s : Slack) (c : Collab) (msg : SlackMessage) (slackChannel : String)
    (h : (sendToChannel s c msg slackChannel).1 = none) :
    (sendToChannel s c msg slackChannel).2.delivered = true := by
  unfold sendToChannel at h ⊢
  dsimp only at h ⊢
  split at h
  · simp at h
  · rfl

theorem sendToChannel_text (s : Slack) (c : Collab) (msg : SlackMessage) (slackChannel : String) :
    (sendToChannel s c msg slackChannel).2.msg.Text = msg.Text := by
  unfold sendToChannel
  dsimp only
  split <;> rfl

theorem handlePodLoop_of_none_restarted (s : Slack) (c : Collab) (now sweep : Int) (pod : Pod)
    (podKey : String) (statuses : List ContainerStatus) (i : Nat)
    (h : ∀ st ∈ statuses, st.RestartCount = 0) :
    handlePodLoop s c now sweep pod podKey i statuses = { ret := .nil, slack := s, posts := [] } := by
  induction statuses generalizing i with
  | nil => rfl
  | cons st rest ih =>
    have h0 : st.RestartCount = 0 := h st (List.mem_cons_self _ _)
    simp only [handlePodLoop, h0, if_true]
    exact ih (i + 1) (fun st2 hst2 => h st2 (List.mem_cons_of_mem _ hst2))

theorem handlePod_of_none_restarted (s : Slack) (c : Collab) (now sweep : Int) (pod : Pod)
    (h : ∀ st ∈ pod.Status.ContainerStatuses, st.RestartCount = 0) :
    handlePod s c now sweep pod = { ret := .nil, slack := s, posts := [] } := by
  unfold handlePod
  by_cases hm : isMuted s (pod.Namespace ++ "/" ++ pod.Name) now = true
  · simp [hm]
  · simp only [hm]
    exact handlePodLoop_of_none_restarted s c now sweep pod _ _ 0 h

theorem handlePod_of_sent (s : Slack) (c : Collab) (now sweep : Int) (pod : Pod)
    (j : Nat) (status : ContainerStatus) (text : Bytes)
    (hm : isMuted s (pod.Namespace ++ "/" ++ pod.Name) now = false)
    (hfirst : FirstRestarted pod j status) (hasm : Assembled c pod j status text)
    (hsend : (sendToChannel s c (alertMessage s pod text) (getSlackChannelFromPod pod)).1 = none) :
    handlePod s c now sweep pod =
      { ret := .nil,
        slack := { s with
          History := cleanOldSlackHistory sweep
            (s.History.set (pod.Namespace ++ "/" ++ pod.Name) now) },
        posts := [(sendToChannel s c (alertMessage s pod text) (getSlackChannelFromPod pod)).2] } := by
  rw [handlePod_of_first s c now sweep pod j status hm hfirst,
    handleRestarted_of_assembled s c now sweep pod _ j status text hasm, hsend]

/-- C11 as stated fails: the sweep that follows the alert reads the clock itself;
when that reading is more than an hour after the time captured at the head of
`handlePod` (here two hours: a stalled call, or a wall clock set forward), the
alert is delivered and the entry just written is swept away again, so the ledger
has no entry for the pod afterwards. -/
theorem new_entry_swept_at_once :
    isMuted {} "default/web-1" 0 = false ∧
      ((handlePod {} quietCollab 0 (2 * Hour) (samplePod "default" "web-1" 1)).posts.map
        fun p => p.delivered) = [true] ∧
      (handlePod {} quietCollab 0 (2 * Hour) (samplePod "default" "web-1" 1)).slack.History
        "default/web-1" = none := by
  refine ⟨by decide, by decide, by decide⟩

/-- C11, amended: for a pod that is not muted, whose restart counts are not
negative and whose first container status with restart count > 0 is `status`
at index `j`, when every diagnostics step for that container succeeds with the
text `text` and the post succeeds, `handlePod` returns nil and makes exactly one
post, delivered, whose text is `text` (the diagnostics of `status`, no later
container); afterwards the ledger is the ledger before with the entry
`namespace/name ↦ currentTime` written and then swept at the sweep's own clock
reading, so that it holds that entry whenever the sweep reads the clock at most
one hour after `currentTime`. For a pod with no container status with restart
count > 0, `handlePod` posts nothing, returns nil and leaves the ledger as it was. -/
theorem first_restarted_alerted (s : Slack) (c : Collab) (now sweep : Int) (pod : Pod)
    (hcount : ∀ st ∈ pod.Status.ContainerStatuses, 0 ≤ st.RestartCount) :
    (∀ j status text,
      isMuted s (pod.Namespace ++ "/" ++ pod.Name) now = false →
      pod.Status.ContainerStatuses[j]? = some status → 0 < status.RestartCount →
      (∀ k st, k < j → pod.Status.ContainerStatuses[k]? = some st → ¬ 0 < st.RestartCount) →
      Assembled c pod j status text →
      (sendToChannel s c (alertMessage s pod text) (getSlackChannelFromPod pod)).1 = none →
      (handlePod s c now sweep pod).ret = .nil ∧
      (handlePod s c now sweep pod).posts =
        [(sendToChannel s c (alertMessage s pod text) (getSlackChannelFromPod pod)).2] ∧
      (sendToChannel s c (alertMessage s pod text) (getSlackChannelFromPod pod)).2.delivered
        = true ∧
      (sendToChannel s c (alertMessage s pod text) (getSlackChannelFromPod pod)).2.msg.Text
        = text ∧
      (handlePod s c now sweep pod).slack.History =
        cleanOldSlackHistory sweep (s.History.set (pod.Namespace ++ "/" ++ pod.Name) now) ∧
      (sweep - now ≤ Hour →
        (handlePod s c now sweep pod).slack.History (pod.Namespace ++ "/" ++ pod.Name)
          = some now)) ∧
    ((∀ st ∈ pod.Status.ContainerStatuses, ¬ 0 < st.RestartCount) →
      handlePod s c now sweep pod = { ret := .nil, slack := s, posts := [] }) := by
  constructor
  · intro j status text hm hj hpos hbefore hasm hsend
    have hfirst : FirstRestarted pod j status := by
      refine ⟨hj, by omega, ?_⟩
      intro k st hk hst
      have h1 := hbefore k st hk hst
      have h2 := hcount st (List.getElem?_mem hst)
      omega
    rw [handlePod_of_sent s c now sweep pod j status text hm hfirst hasm hsend]
    refine ⟨rfl, rfl, sendToChannel_ok s c _ _ hsend, ?_, rfl, ?_⟩
    · rw [sendToChannel_text]
      rfl
    · intro hclock
      exact cleanOldSlackHistory_of_recent sweep _ _ now (by simp [History.set]) hclock
  · intro hnone
    refine handlePod_of_none_restarted s c now sweep pod ?_
    intro st hst
    have h1 := hnone st hst
    have h2 := hcount st hst
    omega

/-- C11 amended, at `default/web-1` with one restart and quiet collaborators, now
and sweep both at second 100: nil is returned and the ledger has the entry
`default/web-1 ↦ 100 s`. -/
theorem first_restarted_alerted_witness :
    (handlePod {} quietCollab (100 * Second) (100 * Second) (samplePod "default" "web-1" 1)).ret
        = .nil ∧
      (handlePod {} quietCollab (100 * Second) (100 * Second)
        (samplePod "default" "web-1" 1)).slack.History "default/web-1" = some (100 * Second) := by
  have h := (first_restarted_alerted {} quietCollab (100 * Second) (100 * Second)
    (samplePod "default" "web-1" 1) (by decide)).1 0 { Name := "app", RestartCount := 1 } _
    (by decide) rfl (by decide) (fun k st hk => by omega)
    ⟨_, _, _, _, _, _, _, rfl, rfl, rfl, rfl, rfl, rfl, rfl, rfl⟩ rfl
  exact ⟨h.1, h.2.2.2.2.2 (by decide)⟩

/-! ### The status reason of `printPod` -/

theorem initWalk_of_failed (pod : Pod) (pre rest : List ContainerStatus)
    (container : ContainerStatus) (terminated : ContainerStateTerminated) (i : Nat)
    (v : PodSummary)
    (hpre : ∀ st ∈ pre, ∃ t, st.State.Terminated = some t ∧ t.ExitCode = 0)
    (hterm : container.State.Terminated = some terminated) (hcode : terminated.ExitCode ≠ 0) :
    (initWalk pod i (pre ++ container :: rest) v).initializing = true ∧
      (initWalk pod i (pre ++ container :: rest) v).reason =
        if terminated.Reason ≠ "" then "Init:" ++ terminated.Reason
        else if terminated.Signal ≠ 0 then "Init:Signal:" ++ toString terminated.Signal
        else "Init:ExitCode:" ++ toString terminated.ExitCode := by
  induction pre generalizing i v with
  | nil =>
    simp only [List.nil_append, initWalk, hterm, hcode, if_false]
    by_cases hr : terminated.Reason = ""
    · by_cases hs : terminated.Signal = 0 <;> simp [hr, hs]
    · simp [hr]
  | cons st pre ih =>
    obtain ⟨t, ht, h0⟩ := hpre st (List.mem_cons_self _ _)
    simp only [List.cons_append, initWalk, ht, h0, if_true]
    exact ih (i + 1) _ (fun st2 hst2 => hpre st2 (List.mem_cons_of_mem _ hst2))

theorem podSummary_of_initializing (pod : Pod) (hdel : pod.DeletionTimestamp = none)
    (hinit : (initSummary pod).initializing = true) :
    podSummary pod = initSummary pod := by
  simp [podSummary, hdel, hinit]

/-- C12: for a pod without a deletion timestamp whose init container statuses
are some that terminated with exit code 0 followed by one that terminated with a
non-zero exit code, the status reason of `printPod` is `Init:` followed by that
container's termination reason if it has one, else `Init:Signal:<signal>` if
the signal is not 0, else `Init:ExitCode:<exit code>`; and it is the same
whatever the statuses of the main containers are. -/
theorem init_failure_reason (pod : Pod) (pre rest : List ContainerStatus)
    (container : ContainerStatus) (terminated : ContainerStateTerminated)
    (hdel : pod.DeletionTimestamp = none)
    (hsplit : pod.Status.InitContainerStatuses = pre ++ container :: rest)
    (hpre : ∀ st ∈ pre, ∃ t, st.State.Terminated = some t ∧ t.ExitCode = 0)
    (hterm : container.State.Terminated = some terminated) (hcode : terminated.ExitCode ≠ 0) :
    printPodReason pod =
        (if terminated.Reason ≠ "" then "Init:" ++ terminated.Reason
        else if terminated.Signal ≠ 0 then "Init:Signal:" ++ toString terminated.Signal
        else "Init:ExitCode:" ++ toString terminated.ExitCode) ∧
      ∀ statuses : List ContainerStatus,
        printPodReason { pod with Status := { pod.Status with ContainerStatuses := statuses } } =
          printPodReason pod := by
  have key : ∀ p : Pod, p.DeletionTimestamp = none →
      p.Status.InitContainerStatuses = pre ++ container :: rest →
      printPodReason p =
        (if terminated.Reason ≠ "" then "Init:" ++ terminated.Reason
        else if terminated.Signal ≠ 0 then "Init:Signal:" ++ toString terminated.Signal
        else "Init:ExitCode:" ++ toString terminated.ExitCode) := by
    intro p hd hs
    have h := initWalk_of_failed p pre rest container terminated 0 (startSummary p) hpre hterm hcode
    rw [← hs] at h
    unfold printPodReason
    rw [podSummary_of_initializing p hd h.1]
    exact h.2
  refine ⟨key pod hdel hsplit, ?_⟩
  intro statuses
  rw [key pod hdel hsplit]
  exact key _ hdel hsplit

/-- C12 at a pod whose second init container was killed by signal 9 without a
reason: the status reason is `Init:Signal:9`. -/
theorem init_failure_reason_witness : printPodReason initFailedPod = "Init:Signal:9" :=
  ((init_failure_reason initFailedPod
    [{ Name := "fetch", State := { Terminated := some { ExitCode := 0, Reason := "Completed" } } }]
    [] { Name := "migrate", State := { Terminated := some { ExitCode := 137, Signal := 9 } } }
    { ExitCode := 137, Signal := 9 } rfl rfl (by decide) rfl (by decide)).1).trans (by decide)

theorem countRestart_hasRunning (v : PodSummary) (container : ContainerStatus) :
    (countRestart v container).hasRunning = v.hasRunning := by
  unfold countRestart
  dsimp only
  split
  · split <;> rfl
  · rfl

theorem mainStep_hasRunning (v : PodSummary) (container : ContainerStatus) :
    (mainStep v container).hasRunning = (v.hasRunning || countsAsRunning container) := by
  have hc := countRestart_hasRunning v container
  unfold mainStep mainStepRest countsAsRunning
  rcases hw : container.State.Waiting with _ | waiting
  · rcases ht : container.State.Terminated with _ | terminated
    · by_cases hr : container.Ready = true ∧ container.State.Running ≠ none
      · simp [hr, hr.1]
      · by_cases hready : container.Ready = true
        · have hrun : container.State.Running = none := by
            by_contra h
            exact hr ⟨hready, h⟩
          simp [hc, hrun]
        · simp [hc, hready]
    · by_cases h1 : terminated.Reason = ""
      · by_cases h2 : terminated.Signal = 0 <;> simp [h1, h2, hc]
      · simp [h1, hc]
  · by_cases hwr : waiting.Reason = ""
    · rcases ht : container.State.Terminated with _ | terminated
      · by_cases hr : container.Ready = true ∧ container.State.Running ≠ none
        · simp [hwr, hr, hr.1]
        · by_cases hready : container.Ready = true
          · have hrun : container.State.Running = none := by
              by_contra h
              exact hr ⟨hready, h⟩
            simp [hwr, hc, hrun]
          · simp [hwr, hc, hready]
      · by_cases h1 : terminated.Reason = ""
        · by_cases h2 : terminated.Signal = 0 <;> simp [hwr, h1, h2, hc]
        · simp [hwr, h1, hc]
    · simp [hwr, hc]

theorem foldl_mainStep_hasRunning (statuses : List ContainerStatus) (v : PodSummary) :
    (statuses.foldl mainStep v).hasRunning = (v.hasRunning || statuses.any countsAsRunning) := by
  induction statuses generalizing v with
  | nil => simp
  | cons st rest ih =>
    simp only [List.foldl_cons, List.any_cons]
    rw [ih, mainStep_hasRunning, Bool.or_assoc]

theorem mainWalk_hasRunning (pod : Pod) :
    (mainWalk pod).hasRunning = pod.Status.ContainerStatuses.any countsAsRunning := by
  unfold mainWalk
  rw [foldl_mainStep_hasRunning]
  simp [List.any_reverse]

theorem podSummary_of_walked (pod : Pod) (hdel : pod.DeletionTimestamp = none)
    (hinit : (initSummary pod).initializing = false) :
    printPodReason pod =
      if (mainWalk pod).reason = "Completed" ∧ (mainWalk pod).hasRunning = true then
        if hasPodReadyCondition pod.Status.Conditions then "Running" else "NotReady"
      else (mainWalk pod).reason := by
  unfold printPodReason podSummary
  simp only [hdel, hinit]
  by_cases h : (mainWalk pod).reason = "Completed" ∧ (mainWalk pod).hasRunning = true
  · by_cases hr : hasPodReadyCondition pod.Status.Conditions = true <;> simp [h, hr]
  · simp [h]

/-- C13 as stated fails: in a job pod whose container `job` has terminated with
reason `Completed` and whose sidecar has just restarted and is running but not
yet ready, a container is running and the reverse walk leaves the reason
`Completed`, yet `printPod` does not promote it: `hasRunning` is set only for a
container that is also ready, and the reason stays `Completed`, not `NotReady`.
The pod reaches `printPod`: the update that raises the restart count of the
sidecar from 0 to 1 is enqueued, and `handlePod` finds the restarted sidecar and
sends the alert assembled for it. -/
theorem running_unready_not_promoted :
    (initSummary sidecarPod).initializing = false ∧ sidecarPod.DeletionTimestamp = none ∧
      (mainWalk sidecarPod).reason = "Completed" ∧
      (∃ container ∈ sidecarPod.Status.ContainerStatuses, container.State.Running ≠ none) ∧
      hasPodReadyCondition sidecarPod.Status.Conditions = false ∧
      printPodReason sidecarPod = "Completed" ∧
      NewController (tableEnv []) (.pod sidecarPodBefore) (.pod sidecarPod) = some "default/job-1" ∧
      FirstRestarted sidecarPod 1
        { Name := "sidecar", Ready := false, RestartCount := 1, State := { Running := some {} } } ∧
      ((handlePod {} quietCollab 0 0 sidecarPod).posts.map (·.delivered)) = [true] := by
  refine ⟨by decide, by decide, by decide, by decide, by decide, by decide, by decide,
    ⟨by decide, by decide, ?_⟩, by decide⟩
  intro k st hk hst
  have hk0 : k = 0 := by omega
  subst hk0
  have hst0 : sidecarPod.Status.ContainerStatuses[0]? =
      some { Name := "job", State := { Terminated := some { Reason := "Completed" } } } := by
    decide
  rw [hst0] at hst
  rw [← Option.some.inj hst]

/-- C13, amended: for a pod that is not
initializing and has no deletion timestamp, if the reverse walk over the main
container statuses leaves the reason `Completed` and at least one container is
ready and running (its `Ready` flag is true, its current state is `Running`, it
is not terminated and has no waiting reason), the status reason is `Running`
when the pod's `Ready` condition is true and `NotReady` otherwise; if no
container is ready and running, the reason stays `Completed`. -/
theorem completed_promoted (pod : Pod) (hdel : pod.DeletionTimestamp = none)
    (hinit : (initSummary pod).initializing = false)
    (hwalk : (mainWalk pod).reason = "Completed") :
    ((∃ container ∈ pod.Status.ContainerStatuses, countsAsRunning container = true) →
      printPodReason pod =
        if hasPodReadyCondition pod.Status.Conditions then "Running" else "NotReady") ∧
    ((∀ container ∈ pod.Status.ContainerStatuses, countsAsRunning container = false) →
      printPodReason pod = "Completed") ∧
    (∀ container ∈ pod.Status.ContainerStatuses,
      container.Ready = true → container.State.Running ≠ none →
      container.State.Terminated = none → container.State.Waiting = none →
      countsAsRunning container = true) := by
  refine ⟨?_, ?_, ?_⟩
  · rintro ⟨container, hmem, hrun⟩
    have hany : (mainWalk pod).hasRunning = true := by
      rw [mainWalk_hasRunning]
      exact List.any_eq_true.mpr ⟨container, hmem, hrun⟩
    rw [podSummary_of_walked pod hdel hinit, if_pos ⟨hwalk, hany⟩]
  · intro hnone
    have hany : ¬ (mainWalk pod).hasRunning = true := by
      rw [mainWalk_hasRunning]
      intro h
      obtain ⟨container, hmem, hrun⟩ := List.any_eq_true.mp h
      rw [hnone container hmem] at hrun
      exact absurd hrun (by simp)
    rw [podSummary_of_walked pod hdel hinit, if_neg (fun h => hany h.2)]
    exact hwalk
  · intro container _ hready hrun hterm hwait
    simp [countsAsRunning, hready, hrun, hterm, hwait]

/-- C13 amended, at the job pod whose restarted sidecar is ready and which has
the pod condition `Ready` true: the status reason is `Running`. -/
theorem completed_promoted_witness : printPodReason readySidecarPod = "Running" :=
  ((completed_promoted readySidecarPod rfl (by decide) (by decide)).1 (by decide)).trans
    (by decide)

/-! ### The container spec behind the resource block -/

/-- C16 (the code at the failing input): in a pod whose spec lists `web` before
`db` while the statuses list `db` first, the restarted container `db` is
reported from index 0 of the statuses, and the resource block is rendered from
`pod.Spec.Containers[0]`, the spec of `web`: the text posted has the state block
of `db` followed by the resource block of `web`. -/
theorem resources_of_other_container :
    webDbPod.Status.ContainerStatuses[0]? = some { Name := "db", RestartCount := 1 } ∧
      webDbPod.Spec.Containers[0]? = some { Name := "web" } ∧
      ((handlePod {} namingCollab 0 0 webDbPod).posts.map fun p => p.msg.Text) =
        [messageText
          (podStatusBlock (str "NAME READY STATUS RESTARTS AGE\n")
            (printContainerLastStateReason { Name := "db", RestartCount := 1 })
            (str "db") (str "web"))
          (str "• No Warning Pod Events\n")
          (str "• Node Status and Events\n```\nNAME STATUS AGE VERSION\n```\n")
          (str "boom\n")] := by
  refine ⟨by decide, by decide, ?_⟩
  set_option maxRecDepth 20000 in decide

end PodRestart
